import Mathlib

/-!
# gfhardware: camera capture as a traced computation

Shallow embedding of `method_capture` (src/gfhardware/src/gfcam.c) and of the
helpers it shares with src/gfhardware/cam.c.  The capture device is a script
of answers, one per call site; a run is the list of calls issued (the trace)
together with the way the function leaves (a value, a raised Python
exception, or a retry loop that never gets a final answer).
-/

namespace GFHardware

/-! ## Constants -/

/-- GFCAM_WIDTH (gfcam.c line 28). -/
def GFCAM_WIDTH : Nat := 2592

/-- GFCAM_HEIGHT (gfcam.c line 29). -/
def GFCAM_HEIGHT : Nat := 1944

/-- NUM_CAM_CONTROLS (gfcam.c line 56). -/
def NUM_CAM_CONTROLS : Nat := 11

/-- EINTR of errno.h (Linux value). -/
def EINTR : Int := 4

/-- EIO of errno.h (Linux value). -/
def EIO : Int := 5

/-- EAGAIN of errno.h (Linux value). -/
def EAGAIN : Int := 11

/-- V4L2_CAP_VIDEO_CAPTURE of linux/videodev2.h. -/
def V4L2_CAP_VIDEO_CAPTURE : Nat := 0x00000001

/-- V4L2_CAP_STREAMING of linux/videodev2.h. -/
def V4L2_CAP_STREAMING : Nat := 0x04000000

/-- Control identifiers used by the sources.  Their numeric values live in
linux/videodev2.h, which is not part of the repository, so they are kept
symbolic; distinct names are distinct ids. -/
inductive Cid where
  | V4L2_CID_GLOWFORGE_SEL_CAM
  | V4L2_CID_EXPOSURE_AUTO
  | V4L2_CID_EXPOSURE
  | V4L2_CID_AUTOGAIN
  | V4L2_CID_GAIN
  | V4L2_CID_AUTO_WHITE_BALANCE
  | V4L2_CID_RED_BALANCE
  | V4L2_CID_BLUE_BALANCE
  | V4L2_CID_FLASH_LED_MODE
  | V4L2_CID_FLASH_TORCH_INTENSITY
  | V4L2_CID_HFLIP
  | V4L2_CID_VFLIP
  deriving DecidableEq, Repr

/-- The struct cam_control of gfcam.c lines 49-53. -/
structure cam_control where
  cid : Cid
  name : String
  value : Int
  deriving DecidableEq, Repr

/-- The table cam_controls of gfcam.c lines 57-69 (same table in cam.c lines 55-67). -/
def cam_controls : List cam_control :=
  [ ⟨.V4L2_CID_EXPOSURE_AUTO, "exposure-auto", 0⟩,
    ⟨.V4L2_CID_EXPOSURE, "exposure", 3000⟩,
    ⟨.V4L2_CID_AUTOGAIN, "gain-auto", 0⟩,
    ⟨.V4L2_CID_GAIN, "gain", 30⟩,
    ⟨.V4L2_CID_AUTO_WHITE_BALANCE, "white-balance-auto", 2⟩,
    ⟨.V4L2_CID_RED_BALANCE, "red-balance", 1100⟩,
    ⟨.V4L2_CID_BLUE_BALANCE, "blue-balance", 1400⟩,
    ⟨.V4L2_CID_FLASH_LED_MODE, "flash-led-mode", 2⟩,
    ⟨.V4L2_CID_FLASH_TORCH_INTENSITY, "flash-intensity", 0⟩,
    ⟨.V4L2_CID_HFLIP, "flip-h", 1⟩,
    ⟨.V4L2_CID_VFLIP, "flip-v", 0⟩ ]

/-- The struct buffer of gfcam.c lines 35-38: a mapped region. -/
structure buffer where
  start : Nat
  length : Nat
  deriving DecidableEq, Repr

/-! ## Machine integers -/

/-- Value of an unsigned 32-bit field after storing `n` into it. -/
def u32 (n : Int) : Nat := (n % 2 ^ 32).toNat

/-- The cast `(int)x` of an unsigned 32-bit value (two's complement, as gcc defines it). -/
def int_of_u32 (n : Nat) : Int :=
  if n % 2 ^ 32 < 2 ^ 31 then ((n % 2 ^ 32 : Nat) : Int) else ((n % 2 ^ 32 : Nat) : Int) - 2 ^ 32

/-- C truth value of a comparison: 1 when it holds, 0 otherwise. -/
def c_bool (p : Prop) [Decidable p] : Nat := if p then 1 else 0

/-! ## The device and the calls made to it -/

/-- Answer of one underlying system call: it returned 0 and wrote `a` back, or
it returned non-zero and left `errno` set. -/
inductive Sys (α : Type) where
  | ok (a : α)
  | err (errno : Int)
  deriving DecidableEq, Repr

/-- Answer of one select call: its return value and the errno it leaves. -/
structure Sel where
  ret : Int
  errno : Int
  deriving DecidableEq, Repr

/-- Requests passed to `_ioctl`, with the argument fields the code fills in. -/
inductive Req where
  | VIDIOC_G_INPUT
  | VIDIOC_ENUMINPUT (index : Nat)
  | VIDIOC_S_CTRL (id : Cid) (value : Int)
  | VIDIOC_QUERYCAP
  | VIDIOC_S_PARM (numerator denominator capturemode : Nat)
  | VIDIOC_CROPCAP
  | VIDIOC_S_CROP (top left width height : Nat)
  | VIDIOC_S_FMT (width height : Nat)
  | VIDIOC_REQBUFS (count : Nat)
  | VIDIOC_QUERYBUF (index : Nat)
  | VIDIOC_QBUF (index : Nat)
  | VIDIOC_STREAMON
  | VIDIOC_DQBUF
  | VIDIOC_STREAMOFF
  deriving DecidableEq, Repr

/-- Heap blocks the function owns. -/
inductive Block where
  | buffers
  | jpg_cinfo
  | jpg_buf
  deriving DecidableEq, Repr

/-- One call made by the program, in program order. -/
inductive Event where
  /-- The call open(GFCAM_DEV_PATH, O_RDWR | O_NONBLOCK, 0) and its return value. -/
  | open_ (ret : Int)
  /-- One invocation of `_ioctl` and the number of underlying v4l2_ioctl calls it made. -/
  | ioctl (fd : Int) (req : Req) (calls : Nat)
  /-- The call calloc(nmemb, sizeof(struct buffer)) and whether it returned non-NULL. -/
  | calloc (nmemb : Nat) (ok : Bool)
  /-- The call mmap(NULL, length, .., MAP_SHARED, fd, offset); `none` is MAP_FAILED. -/
  | mmap (length : Nat) (fd : Int) (offset : Nat) (ret : Option Nat)
  /-- The call select(fd + 1, {fd}, NULL, NULL, {tv_sec, tv_usec}). -/
  | select (fd : Int) (tv_sec tv_usec : Nat)
  /-- The anonymous mapping of the RGB working buffer; `none` is MAP_FAILED. -/
  | mmap_anon (length : Nat) (ret : Option Nat)
  /-- The call dc1394_bayer_decoding_8bit reading buffers[index].start. -/
  | bayer_decoding (index : Nat)
  | munmap (start length : Nat)
  | free (b : Block)
  | close (fd : Int)
  | jpeg_create_compress
  | jpeg_mem_dest
  | jpeg_start_compress
  | jpeg_finish_compress
  | jpeg_destroy_compress
  | PyBytes_FromStringAndSize (ok : Bool)
  deriving DecidableEq, Repr

/-- A capture device together with the rest of the process environment: for
every call site the answers it gives.  A list of `Sys` answers is the sequence
of results of the successive underlying v4l2_ioctl calls of one `_ioctl`
invocation. -/
structure Device where
  /-- Return value of open: a descriptor, or -1. -/
  open_ : Int
  g_input : List (Sys Int)
  /-- Name of the input with the given index. -/
  enuminput : Nat → List (Sys String)
  s_ctrl : Cid → Int → List (Sys Unit)
  /-- The capabilities word. -/
  querycap : List (Sys Nat)
  s_parm : List (Sys Unit)
  cropcap : List (Sys Unit)
  s_crop : List (Sys Unit)
  s_fmt : List (Sys Unit)
  /-- The granted buffer count. -/
  reqbufs : List (Sys Nat)
  /-- Whether calloc of the buffer table returns non-NULL. -/
  calloc : Bool
  /-- Length and offset of the buffer with the given index. -/
  querybuf : Nat → List (Sys (Nat × Nat))
  /-- Address returned by the mmap of the buffer with the given index; `none` is MAP_FAILED. -/
  mmap : Nat → Option Nat
  qbuf : Nat → List (Sys Unit)
  streamon : List (Sys Unit)
  /-- Answers of the successive select calls. -/
  select : List Sel
  /-- Answers to the j-th dequeue request; a success carries the buffer index. -/
  dqbuf : Nat → List (Sys Nat)
  /-- Address of the anonymous RGB mapping; `none` is MAP_FAILED. -/
  mmap_rgb : Option Nat
  streamoff : List (Sys Unit)
  /-- Whether PyBytes_FromStringAndSize returns an object. -/
  pybytes : Bool
  /-- Content of the uninitialised local `index` (gfcam.c line 108). -/
  stack_index : Int
  /-- Content of the uninitialised field cap.capabilities (gfcam.c line 129). -/
  stack_capabilities : Nat

/-! ## Python exceptions -/

/-- Exception classes raised by the sources. -/
inductive Exc where
  | ValueError
  | IOError
  | MemoryError
  deriving DecidableEq, Repr

/-- One argument of a PyErr_Format conversion. -/
inductive Arg where
  /-- A %s argument. -/
  | s (v : String)
  /-- A %d argument. -/
  | d (v : Int)
  /-- A %x argument that is a control id. -/
  | x_cid (c : Cid)
  /-- A %x argument that is a request code. -/
  | x_req (r : Req)
  deriving DecidableEq, Repr

/-- A pending Python exception: class, format string and format arguments. -/
structure PyErr where
  exc : Exc
  format : String
  args : List Arg
  deriving DecidableEq, Repr

/-- PyErr_Format(exc, format, args...) as the exception it sets. -/
def PyErr_Format (exc : Exc) (format : String) (args : List Arg) : PyErr :=
  ⟨exc, format, args⟩

/-! ## Runs -/

/-- How a piece of code leaves: with a value, by returning NULL with an
exception set, or not at all (a retry loop that got no final answer). -/
inductive Res (α : Type) where
  | val (a : α)
  | raise (e : PyErr)
  | hang
  deriving DecidableEq, Repr

/-- A run: the calls issued, in order, and the way the code left. -/
structure Run (α : Type) where
  trace : List Event
  res : Res α
  deriving DecidableEq, Repr

/-- Sequencing: the continuation runs only after a value. -/
def Run.bind {α β : Type} (x : Run α) (f : α → Run β) : Run β :=
  match x.res with
  | .val a => ⟨x.trace ++ (f a).trace, (f a).res⟩
  | .raise e => ⟨x.trace, .raise e⟩
  | .hang => ⟨x.trace, .hang⟩

instance : Monad Run where
  pure a := ⟨[], .val a⟩
  bind := Run.bind

/-- Issue one call. -/
def emit (e : Event) : Run Unit := ⟨[e], .val ()⟩

/-- Return NULL with the exception set. -/
def raise {α : Type} (e : PyErr) : Run α := ⟨[], .raise e⟩

/-- The statement `if (c) return PyErr_Format(...)`. -/
def check (c : Prop) [Decidable c] (e : PyErr) : Run Unit :=
  if c then raise e else pure ()

/-- Return value of `_ioctl` and what the request wrote back, if it succeeded. -/
structure IoctlResult (α : Type) where
  ret : Int
  out : Option α
  deriving DecidableEq, Repr

/-- The retry loop of `_ioctl` over the successive answers of v4l2_ioctl:
number of calls made and the way the loop leaves. -/
def ioctl_loop {α : Type} : List (Sys α) → Nat × Res (IoctlResult α)
  | [] => (0, .hang)
  | .ok a :: _ => (1, .val ⟨0, some a⟩)
  | .err errno :: rest =>
    if errno ≠ EINTR then (1, .val ⟨errno, none⟩)
    else ((ioctl_loop rest).1 + 1, (ioctl_loop rest).2)

/-- The function `_ioctl` of gfcam.c lines 71-80 (cam.c lines 69-78): call
v4l2_ioctl until it returns 0 (return 0) or fails with errno other than EINTR
(return errno). -/
def _ioctl {α : Type} (fd : Int) (req : Req) (answers : List (Sys α)) : Run (IoctlResult α) :=
  ⟨[.ioctl fd req (ioctl_loop answers).1], (ioctl_loop answers).2⟩

/-! ## method_capture (gfcam.c lines 82-343), section by section -/

/-- Open device (gfcam.c lines 102-105). -/
def open_device (dev : Device) : Run Int := do
  emit (.open_ dev.open_)
  check (dev.open_ = -1) (PyErr_Format .IOError "failed to open %s" [.s "/dev/video0"])
  pure dev.open_

/-- Verify that we are set for CSI->MEM (gfcam.c lines 107-118, cam.c lines 116-124). -/
def verify_input (dev : Device) (fd : Int) : Run Unit := do
  let r ← _ioctl fd .VIDIOC_G_INPUT dev.g_input
  check (r.ret < 0) (PyErr_Format .IOError "VIDIOC_G_INPUT failed (%x)" [.x_req .VIDIOC_G_INPUT])
  let index : Int := r.out.getD dev.stack_index
  let r ← _ioctl fd (.VIDIOC_ENUMINPUT (u32 index)) (dev.enuminput (u32 index))
  check (r.ret < 0)
    (PyErr_Format .IOError "VIDIOC_ENUMINPUT failed (%x)" [.x_req (.VIDIOC_ENUMINPUT (u32 index))])
  let name : String := r.out.getD ""
  check (name ≠ "CSI MEM") (PyErr_Format .IOError "video input (%s) is not 'CSI MEM' " [.s name])

/-- Select camera (gfcam.c lines 120-126, cam.c lines 126-131). -/
def select_camera (dev : Device) (fd : Int) (cam_sel : Int) : Run Unit := do
  let r ← _ioctl fd (.VIDIOC_S_CTRL .V4L2_CID_GLOWFORGE_SEL_CAM cam_sel)
    (dev.s_ctrl .V4L2_CID_GLOWFORGE_SEL_CAM cam_sel)
  check (r.ret < 0) (PyErr_Format .IOError "failed to select camera %d" [.d cam_sel])

/-- Validate camera capabilities (gfcam.c lines 128-135, cam.c lines 133-139). -/
def validate_capabilities (dev : Device) (fd : Int) : Run Unit := do
  let r ← _ioctl fd .VIDIOC_QUERYCAP dev.querycap
  check (r.ret < 0) (PyErr_Format .IOError "VIDIOC_QUERYCAP failed" [])
  let capabilities : Nat := r.out.getD dev.stack_capabilities
  check (capabilities &&& V4L2_CAP_VIDEO_CAPTURE = 0)
    (PyErr_Format .IOError "%s is not capture device" [.s "/dev/video0"])
  check (capabilities &&& V4L2_CAP_STREAMING = 0)
    (PyErr_Format .IOError "%s is not a streaming device" [.s "/dev/video0"])

/-- Set capture parameters (gfcam.c lines 137-145, cam.c lines 141-148). -/
def set_parameters (dev : Device) (fd : Int) : Run Unit := do
  let r ← _ioctl fd (.VIDIOC_S_PARM 1 15 4) dev.s_parm
  check (r.ret < 0) (PyErr_Format .IOError "VIDIOC_S_PARM failed" [])

/-- Value sent for one table entry (gfcam.c lines 153-158). -/
def control_value (c : cam_control) (exposure gain : Int) : Int :=
  if c.name = "exposure" then exposure
  else if c.name = "gain" then gain
  else c.value

/-- Set camera controls (gfcam.c lines 147-166): the loop over the table entries still to do. -/
def set_controls (dev : Device) (fd : Int) (exposure gain : Int) : List cam_control → Run Unit
  | [] => pure ()
  | c :: rest => do
    let r ← _ioctl fd (.VIDIOC_S_CTRL c.cid (control_value c exposure gain))
      (dev.s_ctrl c.cid (control_value c exposure gain))
    check (r.ret < 0)
      (PyErr_Format .IOError "VIDIOC_S_CTRL failed (%x/%d)" [.x_cid c.cid, .d c.value])
    set_controls dev fd exposure gain rest

/-- Set capture cropping (gfcam.c lines 168-183, cam.c lines 154-166). -/
def set_cropping (dev : Device) (fd : Int) : Run Unit := do
  let r ← _ioctl fd .VIDIOC_CROPCAP dev.cropcap
  check (r.ret < 0) (PyErr_Format .IOError "VIDIOC_CROPCAP failed" [])
  let r ← _ioctl fd (.VIDIOC_S_CROP 0 0 GFCAM_WIDTH GFCAM_HEIGHT) dev.s_crop
  check (r.ret < 0) (PyErr_Format .IOError "VIDIOC_S_CROP failed" [])

/-- Set capture format (gfcam.c lines 185-193, cam.c lines 168-175). -/
def set_format (dev : Device) (fd : Int) : Run Unit := do
  let r ← _ioctl fd (.VIDIOC_S_FMT GFCAM_WIDTH GFCAM_HEIGHT) dev.s_fmt
  check (r.ret < 0) (PyErr_Format .IOError "VIDIOC_S_FMT failed" [])

/-- The loop of gfcam.c lines 213-227 with `todo` iterations left and the loop
variable at `n_buffers`: query each buffer and map it. -/
def map_buffers (dev : Device) (fd : Int) : (todo : Nat) → (n_buffers : Nat) → Run (List buffer)
  | 0, _ => pure []
  | todo + 1, n_buffers => do
    let r ← _ioctl fd (.VIDIOC_QUERYBUF n_buffers) (dev.querybuf n_buffers)
    check (r.ret < 0) (PyErr_Format .IOError "VIDIOC_QUERYBUF failed" [])
    let length : Nat := (r.out.getD (0, 0)).1
    let offset : Nat := (r.out.getD (0, 0)).2
    emit (.mmap length fd offset (dev.mmap n_buffers))
    match dev.mmap n_buffers with
    | none => raise (PyErr_Format .IOError "mmap failed" [])
    | some start => do
      let rest ← map_buffers dev fd todo (n_buffers + 1)
      pure (⟨start, length⟩ :: rest)

/-- Initialize buffers (gfcam.c lines 195-227, cam.c lines 177-206): the
buffers mapped, in index order; their number is the final n_buffers. -/
def init_buffers (dev : Device) (fd : Int) : Run (List buffer) := do
  let r ← _ioctl fd (.VIDIOC_REQBUFS 2) dev.reqbufs
  check (r.ret < 0) (PyErr_Format .IOError "VIDIOC_REQBUFS failed" [])
  let count : Nat := r.out.getD 2 % 2 ^ 32
  check (count < 2) (PyErr_Format .IOError "Insufficient buffers" [])
  emit (.calloc count dev.calloc)
  check (dev.calloc = false) (PyErr_Format .MemoryError "failed to allocate buffers" [])
  map_buffers dev fd (int_of_u32 count).toNat 0

/-- Queue buffers (gfcam.c lines 229-238, cam.c lines 208-217): the loop with
`todo` iterations left and the loop variable at `i`. -/
def queue_buffers (dev : Device) (fd : Int) : (todo : Nat) → (i : Nat) → Run Unit
  | 0, _ => pure ()
  | todo + 1, i => do
    let r ← _ioctl fd (.VIDIOC_QBUF i) (dev.qbuf i)
    check (r.ret < 0) (PyErr_Format .IOError "VIDIOC_QBUF failed" [])
    queue_buffers dev fd todo (i + 1)

/-- Stream On (gfcam.c lines 240-244, cam.c lines 219-222). -/
def stream_on (dev : Device) (fd : Int) : Run Unit := do
  let r ← _ioctl fd .VIDIOC_STREAMON dev.streamon
  check (r.ret < 0) (PyErr_Format .IOError "VIDIOC_QBUF failed" [])

/-- Select Loop (gfcam.c lines 246-280, cam.c lines 224-258): `j` dequeue
requests were made so far, `sels` are the answers of the select calls still to
come.  The value is buf.index at the `break`.  After `_ioctl` returned non-zero
errno is its return value. -/
def select_loop (dev : Device) (fd : Int) : (j : Nat) → (sels : List Sel) → Run Nat
  | _, [] => ⟨[], .hang⟩
  | j, s :: sels => do
    emit (.select fd 2 0)
    if s.ret = -1 then
      if EINTR = s.errno then select_loop dev fd j sels
      else raise (PyErr_Format .IOError "select failed" [])
    else if s.ret = 0 then raise (PyErr_Format .IOError "select timeout" [])
    else do
      let r ← _ioctl fd .VIDIOC_DQBUF (dev.dqbuf j)
      if r.ret < 0 then
        if c_bool (r.ret = EAGAIN) ||| c_bool (r.ret = EIO) ≠ 0 then select_loop dev fd (j + 1) sels
        else raise (PyErr_Format .IOError "VIDIOC_DQBUF failed" [])
      else pure (r.out.getD 0)

/-- Convert Bayer to RGB (gfcam.c lines 282-293): map the RGB working buffer
and decode buffers[buf.index] into it.  The value is the RGB mapping. -/
def convert (dev : Device) (index : Nat) : Run buffer := do
  let rgb_size : Nat := (GFCAM_WIDTH * GFCAM_HEIGHT * 3) % 2 ^ 32
  emit (.mmap_anon rgb_size dev.mmap_rgb)
  match dev.mmap_rgb with
  | none => raise (PyErr_Format .MemoryError "rgb_map mmap failed" [])
  | some rgb_map => do
    emit (.bayer_decoding index)
    pure ⟨rgb_map, rgb_size⟩

/-- Stop stream (gfcam.c lines 295-298). -/
def stop_stream (dev : Device) (fd : Int) : Run Unit := do
  let r ← _ioctl fd .VIDIOC_STREAMOFF dev.streamoff
  check (r.ret < 0) (PyErr_Format .IOError "VIDIOC_STREAMOFF failed" [])

/-- Release Capture Buffers (gfcam.c lines 300-307): unmap buffers[0..n_buffers),
free the table, close the descriptor. -/
def release_buffers (fd : Int) (buffers : List buffer) : Run Unit :=
  ⟨buffers.map (fun b => Event.munmap b.start b.length) ++ [.free .buffers, .close fd], .val ()⟩

/-- JPEG compression into a memory destination (gfcam.c lines 309-333); the
scanline loop is inside the step between start and finish. -/
def compress : Run Unit :=
  ⟨[.jpeg_create_compress, .jpeg_mem_dest, .jpeg_start_compress, .jpeg_finish_compress,
    .jpeg_destroy_compress], .val ()⟩

/-- A JPEG image returned to Python, with the index of the device buffer it was made from. -/
structure Jpeg where
  index : Nat
  deriving DecidableEq, Repr

/-- Build the result and free the working memory (gfcam.c lines 335-342); a
NULL result is what the function returns when the bytes object cannot be made. -/
def build_result (dev : Device) (rgb : buffer) (index : Nat) : Run Jpeg := do
  emit (.PyBytes_FromStringAndSize dev.pybytes)
  emit (.free .jpg_buf)
  emit (.munmap rgb.start rgb.length)
  if dev.pybytes then pure ⟨index⟩ else raise (PyErr_Format .MemoryError "" [])

/-- The session up to the capture parameters (gfcam.c lines 102-145). -/
def negotiate (dev : Device) (cam_sel : Int) : Run Int := do
  let dev_fd ← open_device dev
  verify_input dev dev_fd
  select_camera dev dev_fd cam_sel
  validate_capabilities dev dev_fd
  set_parameters dev dev_fd
  pure dev_fd

/-- The whole device configuration (gfcam.c lines 102-193). -/
def configure (dev : Device) (cam_sel exposure gain : Int) : Run Int := do
  let dev_fd ← negotiate dev cam_sel
  set_controls dev dev_fd exposure gain (cam_controls.take NUM_CAM_CONTROLS)
  set_cropping dev dev_fd
  set_format dev dev_fd
  pure dev_fd

/-- Everything up to and including Stream On (gfcam.c lines 102-244): the
descriptor and the mapped buffers. -/
def start_streaming (dev : Device) (cam_sel exposure gain : Int) : Run (Int × List buffer) := do
  let dev_fd ← configure dev cam_sel exposure gain
  let buffers ← init_buffers dev dev_fd
  queue_buffers dev dev_fd buffers.length 0
  stream_on dev dev_fd
  pure (dev_fd, buffers)

/-- What the function holds once a frame is converted. -/
structure Captured where
  dev_fd : Int
  buffers : List buffer
  index : Nat
  rgb : buffer
  deriving DecidableEq, Repr

/-- Everything up to the converted frame (gfcam.c lines 102-293). -/
def acquire (dev : Device) (cam_sel exposure gain : Int) : Run Captured := do
  let s ← start_streaming dev cam_sel exposure gain
  let index ← select_loop dev s.1 0 dev.select
  let rgb ← convert dev index
  pure ⟨s.1, s.2, index, rgb⟩

/-- Stop the stream, release everything and return the JPEG (gfcam.c lines 295-342). -/
def finish (dev : Device) (c : Captured) : Run Jpeg := do
  stop_stream dev c.dev_fd
  release_buffers c.dev_fd c.buffers
  compress
  build_result dev c.rgb c.index

/-- The function method_capture of gfcam.c lines 82-343, called with the parsed
arguments cam_sel, exposure and gain. -/
def method_capture (dev : Device) (cam_sel exposure gain : Int) : Run Jpeg :=
  if c_bool (cam_sel < 0) ||| c_bool (cam_sel > 1) ≠ 0 then
    raise (PyErr_Format .ValueError "cam_sel must be between 0 and 1" [])
  else if c_bool (exposure < 0) ||| c_bool (exposure > 65535) ≠ 0 then
    raise (PyErr_Format .ValueError "exposure must be between 0 and 65535" [])
  else if c_bool (gain < 0) ||| c_bool (gain > 1023) ≠ 0 then
    raise (PyErr_Format .ValueError "gain must be between 0 and 1023" [])
  else do
    let c ← acquire dev cam_sel exposure gain
    finish dev c

/-! ## capture of cam.c (lines 96-286) -/

/-- The object cam_device of cam.c lines 38-45; `buffers = none` is the NULL table. -/
structure cam_device where
  fd : Int
  buffers : Option (List buffer)
  n_buffers : Int
  setup : Int
  cam_sel : Int
  deriving DecidableEq, Repr

/-- The function `_set_controls` of cam.c lines 80-94: every table entry with
its table value; the loop over the entries still to do. -/
def _set_controls (dev : Device) (fd : Int) : List cam_control → Run Unit
  | [] => pure ()
  | c :: rest => do
    let r ← _ioctl fd (.VIDIOC_S_CTRL c.cid c.value) (dev.s_ctrl c.cid c.value)
    check (r.ret < 0)
      (PyErr_Format .IOError "VIDIOC_S_CTRL failed (%x/%d)" [.x_cid c.cid, .d c.value])
    _set_controls dev fd rest

/-- The raw RGB bytes returned by capture of cam.c, with the index of the
device buffer they were made from. -/
structure Rgb where
  index : Nat
  deriving DecidableEq, Repr

/-- The function capture of cam.c up to and including Stream On (lines
111-222): the descriptor and the mapped buffers.  The stores to self->fd,
self->buffers and self->n_buffers are carried as these values; the sections
shared word for word with method_capture are the definitions above. -/
def capture_start (dev : Device) (self : cam_device) : Run (Int × List buffer) := do
  let fd ← open_device dev
  verify_input dev fd
  select_camera dev fd self.cam_sel
  validate_capabilities dev fd
  set_parameters dev fd
  _set_controls dev fd (cam_controls.take NUM_CAM_CONTROLS)
  set_cropping dev fd
  set_format dev fd
  let buffers ← init_buffers dev fd
  queue_buffers dev fd buffers.length 0
  stream_on dev fd
  pure (fd, buffers)

/-- The function capture of cam.c lines 96-286. -/
def capture (dev : Device) (self : cam_device) : Run Rgb := do
  let s ← capture_start dev self
  let index ← select_loop dev s.1 0 dev.select
  let rgb ← convert dev index
  emit (.PyBytes_FromStringAndSize dev.pybytes)
  check (dev.pybytes = false) (PyErr_Format .MemoryError "" [])
  stop_stream dev s.1
  emit (.munmap rgb.start rgb.length)
  pure ⟨index⟩

/-- Calls that allocate device buffers: the buffer request, a buffer query, a mapping. -/
def Event.allocates_buffer : Event → Bool
  | .ioctl _ (.VIDIOC_REQBUFS _) _ => true
  | .ioctl _ (.VIDIOC_QUERYBUF _) _ => true
  | .mmap _ _ _ _ => true
  | _ => false

/-! ## Classifying calls -/

/-- Position of a request in the order in which method_capture first issues it. -/
def Req.site : Req → Nat
  | .VIDIOC_G_INPUT => 1
  | .VIDIOC_ENUMINPUT _ => 2
  | .VIDIOC_S_CTRL _ _ => 3
  | .VIDIOC_QUERYCAP => 4
  | .VIDIOC_S_PARM _ _ _ => 5
  | .VIDIOC_CROPCAP => 6
  | .VIDIOC_S_CROP _ _ _ _ => 7
  | .VIDIOC_S_FMT _ _ => 8
  | .VIDIOC_REQBUFS _ => 9
  | .VIDIOC_QUERYBUF _ => 11
  | .VIDIOC_QBUF _ => 13
  | .VIDIOC_STREAMON => 14
  | .VIDIOC_DQBUF => 16
  | .VIDIOC_STREAMOFF => 19

/-- Position of a call in the order in which method_capture first makes it:
0-8 configuration (lines 102-193), 9-14 buffer set-up and stream start
(195-244), 15-18 waiting for and converting the frame (246-293), 19 and above
stream stop, release and encoding (295-342). -/
def Event.site : Event → Nat
  | .open_ _ => 0
  | .ioctl _ req _ => req.site
  | .calloc _ _ => 10
  | .mmap _ _ _ _ => 12
  | .select _ _ _ => 15
  | .mmap_anon _ _ => 17
  | .bayer_decoding _ => 18
  | .munmap _ _ => 20
  | .free _ => 21
  | .close _ => 22
  | .jpeg_create_compress => 23
  | .jpeg_mem_dest => 24
  | .jpeg_start_compress => 25
  | .jpeg_finish_compress => 26
  | .jpeg_destroy_compress => 27
  | .PyBytes_FromStringAndSize _ => 28

/-- Every call of the run satisfies `P`. -/
def Run.All {α : Type} (P : Event → Prop) (x : Run α) : Prop := ∀ ev ∈ x.trace, P ev

/-! ## Resources held by the process -/

/-- What the process holds: open descriptors, mapped regions (start and
length) and heap blocks, most recent first. -/
structure Resources where
  fds : List Int
  maps : List buffer
  heap : List Block
  deriving DecidableEq, Repr

/-- Effect of one call on the resources held.  The JPEG output buffer is
allocated by the memory destination when compression starts and is released
by the caller with free; the compressor state lives from create to destroy. -/
def Resources.step (r : Resources) : Event → Resources
  | .open_ ret => if ret = -1 then r else { r with fds := ret :: r.fds }
  | .close fd => { r with fds := r.fds.erase fd }
  | .mmap length _ _ (some start) => { r with maps := ⟨start, length⟩ :: r.maps }
  | .mmap_anon length (some start) => { r with maps := ⟨start, length⟩ :: r.maps }
  | .munmap start length => { r with maps := r.maps.erase ⟨start, length⟩ }
  | .calloc _ true => { r with heap := Block.buffers :: r.heap }
  | .jpeg_create_compress => { r with heap := Block.jpg_cinfo :: r.heap }
  | .jpeg_start_compress => { r with heap := Block.jpg_buf :: r.heap }
  | .jpeg_destroy_compress => { r with heap := r.heap.erase Block.jpg_cinfo }
  | .free b => { r with heap := r.heap.erase b }
  | _ => r

/-- Resources held after a sequence of calls. -/
def Resources.after (r : Resources) (t : List Event) : Resources := t.foldl Resources.step r

/-- The control id and value of a set-control request, for a call that is one. -/
def Event.set_control : Event → Option (Cid × Int)
  | .ioctl _ (.VIDIOC_S_CTRL id value) _ => some (id, value)
  | _ => none

/-- The set-control requests of a trace, in order, each with its id and value. -/
def set_control_requests (t : List Event) : List (Cid × Int) := t.filterMap Event.set_control

/-- The set-control requests of a trace for the ids of the control table, in order. -/
def table_control_requests (t : List Event) : List (Cid × Int) :=
  (set_control_requests t).filter (fun p => p.1 ∈ cam_controls.map cam_control.cid)

/-- Whether a call is a select call. -/
def Event.is_select : Event → Bool
  | .select _ _ _ => true
  | _ => false

/-- Whether a call is a dequeue request. -/
def Event.is_dequeue : Event → Bool
  | .ioctl _ .VIDIOC_DQBUF _ => true
  | _ => false

/-- The select calls of a trace, in order. -/
def waits (t : List Event) : List Event := t.filter Event.is_select

/-- The dequeue requests of a trace, in order. -/
def dequeues (t : List Event) : List Event := t.filter Event.is_dequeue

/-- The buffer indexes handed to the Bayer conversion, in order. -/
def converted (t : List Event) : List Nat :=
  t.filterMap (fun ev => match ev with | .bayer_decoding index => some index | _ => none)

/-- One call of method_capture: the device behaviour it meets and its arguments. -/
structure Call where
  dev : Device
  cam_sel : Int
  exposure : Int
  gain : Int

/-- The run of one call. -/
def Call.run (c : Call) : Run Jpeg := method_capture c.dev c.cam_sel c.exposure c.gain

/-- The calls made by consecutive calls of method_capture, in order. -/
def consecutive : List Call → List Event
  | [] => []
  | c :: cs => c.run.trace ++ consecutive cs

/-- What a call asks of the buffer pool: a query request for buffer `index`,
a mapping of the buffer just queried (with success or not), a queue request
for buffer `index`.  A request is recorded whatever its outcome. -/
inductive BufferStep where
  | query (index : Nat)
  | map (ok : Bool)
  | queue (index : Nat)
  deriving DecidableEq, Repr

/-- The buffer-pool step of a call, for a call that is one.  A query or queue
request counts as issued, not as successful: see `queued` for the outcome. -/
def Event.buffer_step : Event → Option BufferStep
  | .ioctl _ (.VIDIOC_QUERYBUF index) _ => some (.query index)
  | .mmap _ _ _ ret => some (.map ret.isSome)
  | .ioctl _ (.VIDIOC_QBUF index) _ => some (.queue index)
  | _ => none

/-- The buffer-pool steps of a trace, in order. -/
def buffer_steps (t : List Event) : List BufferStep := t.filterMap Event.buffer_step

/-- Whether the queue request for buffer `index` leaves the buffer queued on
the device: the retry loop of `_ioctl` ends with a call that returned 0. -/
def Device.queues (dev : Device) (index : Nat) : Bool :=
  match (ioctl_loop (dev.qbuf index)).2 with
  | .val r => r.out.isSome
  | _ => false

/-- The buffers a trace has queued on a device, in order: the indexes of its
queue requests that the device accepted. -/
def queued (dev : Device) (t : List Event) : List Nat :=
  t.filterMap (fun ev =>
    match ev with
    | .ioctl _ (.VIDIOC_QBUF index) _ => if dev.queues index = true then some index else none
    | _ => none)

/-- A device on which a capture goes through: input "CSI MEM", capture and
streaming capabilities, two buffers of one frame each, ready at the first wait. -/
def nominal : Device where
  open_ := 3
  g_input := [.ok 0]
  enuminput := fun _ => [.ok "CSI MEM"]
  s_ctrl := fun _ _ => [.ok ()]
  querycap := [.ok (V4L2_CAP_VIDEO_CAPTURE ||| V4L2_CAP_STREAMING)]
  s_parm := [.ok ()]
  cropcap := [.ok ()]
  s_crop := [.ok ()]
  s_fmt := [.ok ()]
  reqbufs := [.ok 2]
  calloc := true
  querybuf := fun i => [.ok (GFCAM_WIDTH * GFCAM_HEIGHT, i * (GFCAM_WIDTH * GFCAM_HEIGHT))]
  mmap := fun i => some (0x10000000 + i * 0x1000000)
  qbuf := fun _ => [.ok ()]
  streamon := [.ok ()]
  select := [⟨1, 0⟩]
  dqbuf := fun _ => [.ok 1]
  mmap_rgb := some 0x20000000
  streamoff := [.ok ()]
  pybytes := true
  stack_index := 0
  stack_capabilities := 0

/-! ## The camera selector in cam.c and gfcam.c -/

/-- The function `_init_camera` of cam.c lines 300-311: the return value and
the object after the call.  `args` is the integer PyArg_ParseTuple delivers
(`none` when parsing fails); `stack_cam_sel` is the content of the
uninitialised local cam_sel, which is what line 307 reads after a failed
parse. -/
def _init_camera (self : cam_device) (args : Option Int) (stack_cam_sel : Int) :
    Int × cam_device :=
  let self1 : cam_device := { self with buffers := none, setup := 0 }
  let self2 : cam_device :=
    match args with
    | some _ => self1
    | none => { self1 with cam_sel := 0 }
  let cam_sel : Int := args.getD stack_cam_sel
  let self3 : cam_device := if cam_sel ≠ 0 then { self2 with cam_sel := 1 } else self2
  (0, self3)

/-- A freshly allocated cam_device: PyType_GenericNew hands out zeroed memory. -/
def zeroed : cam_device := ⟨0, none, 0, 0, 0⟩

/-- The value of a camera-select request, for a call that is one. -/
def Event.camera_select : Event → Option Int
  | .ioctl _ (.VIDIOC_S_CTRL .V4L2_CID_GLOWFORGE_SEL_CAM value) _ => some value
  | _ => none

/-- The selectors sent to the device by a trace, in order. -/
def camera_selects (t : List Event) : List Int := t.filterMap Event.camera_select

/-- The calls up to and including the camera selection, which method_capture
(gfcam.c lines 102-126) and capture (cam.c lines 111-131) make in the same way. -/
def open_and_select (dev : Device) (cam_sel : Int) : Run Int := do
  let fd ← open_device dev
  verify_input dev fd
  select_camera dev fd cam_sel
  pure fd

/-- The clamping variant in the words of the specification: any non-zero
input silently becomes 1. -/
def clamp_selector (c : Int) : Int := if c = 0 then 0 else 1

/-- The strict variant in the words of the specification: any value outside
0 and 1 is rejected with an error (`none`), a value inside is used as it is. -/
def strict_selector (c : Int) : Option Int := if c = 0 ∨ c = 1 then some c else none

/-! ## The RGB buffer and the scanline loop (gfcam.c lines 283, 318-330) -/

/-- The value of rgb_size, line 283: `GFCAM_WIDTH * GFCAM_HEIGHT * 3` stored in a uint32_t. -/
def rgb_size : Nat := (GFCAM_WIDTH * GFCAM_HEIGHT * 3) % 2 ^ 32

/-- Bytes libjpeg reads from one row pointer: image_width * input_components (lines 318, 320). -/
def row_bytes : Nat := GFCAM_WIDTH * 3

/-- Byte offset into rgb_map of the row passed at line 328,
`next_scanline * GFCAM_WIDTH * 3` in unsigned 32-bit arithmetic. -/
def row_offset (next_scanline : Nat) : Nat := (next_scanline * GFCAM_WIDTH * 3) % 2 ^ 32

/-- The loop of lines 327-330 run for at most `fuel` iterations from the
given next_scanline: the calls of jpeg_write_scanlines made, each as the
scanline it is made at and the byte offset of the row it passes, or `none`
when the loop is still running after `fuel` iterations.  `written s` is the
number of lines the call made at scanline `s` reports as written, by which
the library advances next_scanline. -/
def scanline_loop (written : Nat → Nat) (image_height : Nat) :
    (fuel : Nat) → (next_scanline : Nat) → Option (List (Nat × Nat))
  | 0, next_scanline => if next_scanline < image_height then none else some []
  | fuel + 1, next_scanline =>
    if next_scanline < image_height then
      (scanline_loop written image_height fuel (next_scanline + written next_scanline)).map
        (fun calls => (next_scanline, row_offset next_scanline) :: calls)
    else some []

/-! ## evdev.c: test_bit and ioctl_EVIOCG_bits -/

/-- EV_SW of linux/input-event-codes.h. -/
def EV_SW : Int := 5

/-- The value of a `char` holding the byte `b`: the byte itself where char
is unsigned, the byte minus 256 from 128 on where char is signed. -/
def char_value (signed_char : Bool) (b : Nat) : Int :=
  if signed_char = true ∧ 128 ≤ b % 256 then ((b % 256 : Nat) : Int) - 256 else ((b % 256 : Nat) : Int)

/-- The function test_bit of evdev.c lines 37-40, for a non-negative `bit`:
`bitmask[bit/8] & (1 << (bit % 8))`, the char promoted to int and the
conjunction taken on the 32-bit two's complement patterns. -/
def test_bit (signed_char : Bool) (bitmask : List Nat) (bit : Nat) : Int :=
  int_of_u32 (u32 (char_value signed_char (bitmask.getD (bit / 8) 0)) &&& (1 <<< (bit % 8)))

/-- The loop of evdev.c lines 167-171 with `todo` iterations left and the
loop variable at `i`: the integers appended to the result list, in order. -/
def collect_bits (signed_char : Bool) (bytes : List Nat) : (todo : Nat) → (i : Nat) → List Nat
  | 0, _ => []
  | todo + 1, i =>
    if test_bit signed_char bytes i ≠ 0 then i :: collect_bits signed_char bytes todo (i + 1)
    else collect_bits signed_char bytes todo (i + 1)

/-- The function ioctl_EVIOCG_bits of evdev.c lines 140-174, called with the
parsed evtype.  `SW_MAX` is the constant of linux/input-event-codes.h, which
is not part of the repository; `ret` is the return value of the EVIOCGSW
ioctl and `bytes` the content of the array of (max+7)/8 bytes after it.  The
value is the list returned, `none` for a NULL return. -/
def ioctl_EVIOCG_bits (signed_char : Bool) (SW_MAX : Nat) (evtype : Int) (ret : Int)
    (bytes : List Nat) : Option (List Nat) :=
  if evtype = EV_SW then
    if ret = -1 then none
    else some (collect_bits signed_char bytes SW_MAX 0)
  else none

/-- Whether bit `i` of a bitmask is set: byte i/8, bit i mod 8, least-significant first. -/
def bit_set (bytes : List Nat) (i : Nat) : Bool := (bytes.getD (i / 8) 0).testBit (i % 8)

/-! ## Reasoning about runs -/

theorem c_bool_or_ne_zero (p q : Prop) [Decidable p] [Decidable q] :
    (c_bool p ||| c_bool q ≠ 0) ↔ (p ∨ q) := by
  by_cases hp : p <;> by_cases hq : q <;> simp [c_bool, hp, hq]

theorem bind_eq {α β : Type} (x : Run α) (f : α → Run β) : x >>= f = Run.bind x f := rfl

theorem pure_eq {α : Type} (a : α) : (pure a : Run α) = ⟨[], .val a⟩ := rfl

@[simp] theorem bind_val {α β : Type} (t : List Event) (a : α) (f : α → Run β) :
    Run.bind ⟨t, .val a⟩ f = ⟨t ++ (f a).trace, (f a).res⟩ := rfl

@[simp] theorem bind_raise {α β : Type} (t : List Event) (e : PyErr) (f : α → Run β) :
    Run.bind ⟨t, .raise e⟩ f = ⟨t, .raise e⟩ := rfl

@[simp] theorem bind_hang {α β : Type} (t : List Event) (f : α → Run β) :
    Run.bind (⟨t, .hang⟩ : Run α) f = ⟨t, .hang⟩ := rfl

/-- The trace of a sequence starts with the trace of its first part. -/
theorem bind_trace_prefix {α β : Type} (x : Run α) (f : α → Run β) :
    ∃ t, (Run.bind x f).trace = x.trace ++ t := by
  obtain ⟨t, r⟩ := x
  cases r with
  | val a => exact ⟨(f a).trace, rfl⟩
  | raise e => exact ⟨[], by simp⟩
  | hang => exact ⟨[], by simp⟩

/-- The first call of a sequence is the first call of its first part. -/
theorem bind_head {α β : Type} (x : Run α) (f : α → Run β) (e : Event)
    (h : x.trace.head? = some e) : (Run.bind x f).trace.head? = some e := by
  obtain ⟨t, ht⟩ := bind_trace_prefix x f
  rw [ht]
  cases hx : x.trace with
  | nil => rw [hx] at h; simp at h
  | cons a l => rw [hx] at h; simpa using h

/-! ## Properties of every call of a run -/

theorem All_bind {α β : Type} {P : Event → Prop} {x : Run α} {f : α → Run β}
    (hx : x.All P) (hf : ∀ a, (f a).All P) : (x >>= f).All P := by
  obtain ⟨t, r⟩ := x
  cases r with
  | val a =>
    intro ev hev
    simp only [bind_eq, bind_val, List.mem_append] at hev
    rcases hev with h | h
    · exact hx ev h
    · exact hf a ev h
  | raise e => exact hx
  | hang => exact hx

theorem All_pure {α : Type} {P : Event → Prop} (a : α) : (pure a : Run α).All P := by
  intro ev hev; simp [pure_eq] at hev

theorem All_raise {α : Type} {P : Event → Prop} (e : PyErr) : (raise e : Run α).All P := by
  intro ev hev; simp [raise] at hev

theorem All_check {P : Event → Prop} (c : Prop) [Decidable c] (e : PyErr) :
    (check c e).All P := by
  unfold check; split
  · exact All_raise e
  · exact All_pure ()

theorem All_emit {P : Event → Prop} (e : Event) (h : P e) : (emit e).All P := by
  intro ev hev; simp [emit] at hev; rw [hev]; exact h

theorem All_ioctl {α : Type} {P : Event → Prop} (fd : Int) (req : Req) (answers : List (Sys α))
    (h : ∀ n, P (.ioctl fd req n)) : (_ioctl fd req answers).All P := by
  intro ev hev; simp [_ioctl] at hev; rw [hev]; exact h _

theorem All_mono {α : Type} {P Q : Event → Prop} {x : Run α} (h : ∀ ev, P ev → Q ev)
    (hx : x.All P) : x.All Q := fun ev hev => h ev (hx ev hev)

theorem All_emit_site (e : Event) (lo hi : Nat) (h1 : lo ≤ e.site) (h2 : e.site ≤ hi) :
    (emit e).All (fun ev => lo ≤ ev.site ∧ ev.site ≤ hi) :=
  All_emit e ⟨h1, h2⟩

theorem All_ioctl_site {α : Type} (fd : Int) (req : Req) (answers : List (Sys α)) (lo hi : Nat)
    (h1 : lo ≤ req.site) (h2 : req.site ≤ hi) :
    (_ioctl fd req answers).All (fun ev => lo ≤ ev.site ∧ ev.site ≤ hi) :=
  All_ioctl fd req answers (fun _ => ⟨h1, h2⟩)

theorem open_device_site (dev : Device) :
    (open_device dev).All (fun ev => 0 ≤ ev.site ∧ ev.site ≤ 0) := by
  unfold open_device
  repeat (first
    | exact All_pure _ | exact All_raise _ | exact All_check _ _
    | exact All_emit_site _ _ _ (Nat.le_of_ble_eq_true rfl) (Nat.le_of_ble_eq_true rfl)
    | exact All_ioctl_site _ _ _ _ _ (Nat.le_of_ble_eq_true rfl) (Nat.le_of_ble_eq_true rfl)
    | (apply All_bind) | split | (intro _))

theorem verify_input_site (dev : Device) (fd : Int) :
    (verify_input dev fd).All (fun ev => 1 ≤ ev.site ∧ ev.site ≤ 2) := by
  unfold verify_input
  repeat (first
    | exact All_pure _ | exact All_raise _ | exact All_check _ _
    | exact All_emit_site _ _ _ (Nat.le_of_ble_eq_true rfl) (Nat.le_of_ble_eq_true rfl)
    | exact All_ioctl_site _ _ _ _ _ (Nat.le_of_ble_eq_true rfl) (Nat.le_of_ble_eq_true rfl)
    | (apply All_bind) | split | (intro _))

theorem select_camera_site (dev : Device) (fd cam_sel : Int) :
    (select_camera dev fd cam_sel).All (fun ev => 3 ≤ ev.site ∧ ev.site ≤ 3) := by
  unfold select_camera
  repeat (first
    | exact All_pure _ | exact All_raise _ | exact All_check _ _
    | exact All_emit_site _ _ _ (Nat.le_of_ble_eq_true rfl) (Nat.le_of_ble_eq_true rfl)
    | exact All_ioctl_site _ _ _ _ _ (Nat.le_of_ble_eq_true rfl) (Nat.le_of_ble_eq_true rfl)
    | (apply All_bind) | split | (intro _))

theorem validate_capabilities_site (dev : Device) (fd : Int) :
    (validate_capabilities dev fd).All (fun ev => 4 ≤ ev.site ∧ ev.site ≤ 4) := by
  unfold validate_capabilities
  repeat (first
    | exact All_pure _ | exact All_raise _ | exact All_check _ _
    | exact All_emit_site _ _ _ (Nat.le_of_ble_eq_true rfl) (Nat.le_of_ble_eq_true rfl)
    | exact All_ioctl_site _ _ _ _ _ (Nat.le_of_ble_eq_true rfl) (Nat.le_of_ble_eq_true rfl)
    | (apply All_bind) | split | (intro _))

theorem set_parameters_site (dev : Device) (fd : Int) :
    (set_parameters dev fd).All (fun ev => 5 ≤ ev.site ∧ ev.site ≤ 5) := by
  unfold set_parameters
  repeat (first
    | exact All_pure _ | exact All_raise _ | exact All_check _ _
    | exact All_emit_site _ _ _ (Nat.le_of_ble_eq_true rfl) (Nat.le_of_ble_eq_true rfl)
    | exact All_ioctl_site _ _ _ _ _ (Nat.le_of_ble_eq_true rfl) (Nat.le_of_ble_eq_true rfl)
    | (apply All_bind) | split | (intro _))

theorem set_cropping_site (dev : Device) (fd : Int) :
    (set_cropping dev fd).All (fun ev => 6 ≤ ev.site ∧ ev.site ≤ 7) := by
  unfold set_cropping
  repeat (first
    | exact All_pure _ | exact All_raise _ | exact All_check _ _
    | exact All_emit_site _ _ _ (Nat.le_of_ble_eq_true rfl) (Nat.le_of_ble_eq_true rfl)
    | exact All_ioctl_site _ _ _ _ _ (Nat.le_of_ble_eq_true rfl) (Nat.le_of_ble_eq_true rfl)
    | (apply All_bind) | split | (intro _))

theorem set_format_site (dev : Device) (fd : Int) :
    (set_format dev fd).All (fun ev => 8 ≤ ev.site ∧ ev.site ≤ 8) := by
  unfold set_format
  repeat (first
    | exact All_pure _ | exact All_raise _ | exact All_check _ _
    | exact All_emit_site _ _ _ (Nat.le_of_ble_eq_true rfl) (Nat.le_of_ble_eq_true rfl)
    | exact All_ioctl_site _ _ _ _ _ (Nat.le_of_ble_eq_true rfl) (Nat.le_of_ble_eq_true rfl)
    | (apply All_bind) | split | (intro _))

theorem stream_on_site (dev : Device) (fd : Int) :
    (stream_on dev fd).All (fun ev => 14 ≤ ev.site ∧ ev.site ≤ 14) := by
  unfold stream_on
  repeat (first
    | exact All_pure _ | exact All_raise _ | exact All_check _ _
    | exact All_emit_site _ _ _ (Nat.le_of_ble_eq_true rfl) (Nat.le_of_ble_eq_true rfl)
    | exact All_ioctl_site _ _ _ _ _ (Nat.le_of_ble_eq_true rfl) (Nat.le_of_ble_eq_true rfl)
    | (apply All_bind) | split | (intro _))

theorem convert_site (dev : Device) (index : Nat) :
    (convert dev index).All (fun ev => 17 ≤ ev.site ∧ ev.site ≤ 18) := by
  unfold convert
  repeat (first
    | exact All_pure _ | exact All_raise _ | exact All_check _ _
    | exact All_emit_site _ _ _ (Nat.le_of_ble_eq_true rfl) (Nat.le_of_ble_eq_true rfl)
    | exact All_ioctl_site _ _ _ _ _ (Nat.le_of_ble_eq_true rfl) (Nat.le_of_ble_eq_true rfl)
    | (apply All_bind) | split | (intro _))

theorem stop_stream_site (dev : Device) (fd : Int) :
    (stop_stream dev fd).All (fun ev => 19 ≤ ev.site ∧ ev.site ≤ 19) := by
  unfold stop_stream
  repeat (first
    | exact All_pure _ | exact All_raise _ | exact All_check _ _
    | exact All_emit_site _ _ _ (Nat.le_of_ble_eq_true rfl) (Nat.le_of_ble_eq_true rfl)
    | exact All_ioctl_site _ _ _ _ _ (Nat.le_of_ble_eq_true rfl) (Nat.le_of_ble_eq_true rfl)
    | (apply All_bind) | split | (intro _))

theorem build_result_site (dev : Device) (rgb : buffer) (index : Nat) :
    (build_result dev rgb index).All (fun ev => 20 ≤ ev.site ∧ ev.site ≤ 28) := by
  unfold build_result
  repeat (first
    | exact All_pure _ | exact All_raise _ | exact All_check _ _
    | exact All_emit_site _ _ _ (Nat.le_of_ble_eq_true rfl) (Nat.le_of_ble_eq_true rfl)
    | exact All_ioctl_site _ _ _ _ _ (Nat.le_of_ble_eq_true rfl) (Nat.le_of_ble_eq_true rfl)
    | (apply All_bind) | split | (intro _))

theorem set_controls_site (dev : Device) (fd exposure gain : Int) (l : List cam_control) :
    (set_controls dev fd exposure gain l).All (fun ev => 3 ≤ ev.site ∧ ev.site ≤ 3) := by
  induction l with
  | nil => exact All_pure _
  | cons c rest ih =>
    unfold set_controls
    repeat (first
      | exact ih | exact ih _
      | exact All_pure _ | exact All_raise _ | exact All_check _ _
      | exact All_emit_site _ _ _ (Nat.le_of_ble_eq_true rfl) (Nat.le_of_ble_eq_true rfl)
      | exact All_ioctl_site _ _ _ _ _ (Nat.le_of_ble_eq_true rfl) (Nat.le_of_ble_eq_true rfl)
      | (apply All_bind) | split | (intro _))

theorem _set_controls_site (dev : Device) (fd : Int) (l : List cam_control) :
    (_set_controls dev fd l).All (fun ev => 3 ≤ ev.site ∧ ev.site ≤ 3) := by
  induction l with
  | nil => exact All_pure _
  | cons c rest ih =>
    unfold _set_controls
    repeat (first
      | exact ih | exact ih _
      | exact All_pure _ | exact All_raise _ | exact All_check _ _
      | exact All_emit_site _ _ _ (Nat.le_of_ble_eq_true rfl) (Nat.le_of_ble_eq_true rfl)
      | exact All_ioctl_site _ _ _ _ _ (Nat.le_of_ble_eq_true rfl) (Nat.le_of_ble_eq_true rfl)
      | (apply All_bind) | split | (intro _))

theorem map_buffers_site (dev : Device) (fd : Int) (todo n : Nat) :
    (map_buffers dev fd todo n).All (fun ev => 11 ≤ ev.site ∧ ev.site ≤ 12) := by
  induction todo generalizing n with
  | zero => exact All_pure _
  | succ todo ih =>
    unfold map_buffers
    repeat (first
      | exact ih | exact ih _
      | exact All_pure _ | exact All_raise _ | exact All_check _ _
      | exact All_emit_site _ _ _ (Nat.le_of_ble_eq_true rfl) (Nat.le_of_ble_eq_true rfl)
      | exact All_ioctl_site _ _ _ _ _ (Nat.le_of_ble_eq_true rfl) (Nat.le_of_ble_eq_true rfl)
      | (apply All_bind) | split | (intro _))

theorem queue_buffers_site (dev : Device) (fd : Int) (todo i : Nat) :
    (queue_buffers dev fd todo i).All (fun ev => 13 ≤ ev.site ∧ ev.site ≤ 13) := by
  induction todo generalizing i with
  | zero => exact All_pure _
  | succ todo ih =>
    unfold queue_buffers
    repeat (first
      | exact ih | exact ih _
      | exact All_pure _ | exact All_raise _ | exact All_check _ _
      | exact All_emit_site _ _ _ (Nat.le_of_ble_eq_true rfl) (Nat.le_of_ble_eq_true rfl)
      | exact All_ioctl_site _ _ _ _ _ (Nat.le_of_ble_eq_true rfl) (Nat.le_of_ble_eq_true rfl)
      | (apply All_bind) | split | (intro _))

theorem select_loop_site (dev : Device) (fd : Int) (j : Nat) (sels : List Sel) :
    (select_loop dev fd j sels).All (fun ev => 15 ≤ ev.site ∧ ev.site ≤ 16) := by
  induction sels generalizing j with
  | nil => intro ev hev; simp [select_loop] at hev
  | cons s sels ih =>
    unfold select_loop
    repeat (first
      | exact ih | exact ih _
      | exact All_pure _ | exact All_raise _ | exact All_check _ _
      | exact All_emit_site _ _ _ (Nat.le_of_ble_eq_true rfl) (Nat.le_of_ble_eq_true rfl)
      | exact All_ioctl_site _ _ _ _ _ (Nat.le_of_ble_eq_true rfl) (Nat.le_of_ble_eq_true rfl)
      | (apply All_bind) | split | (intro _))

theorem init_buffers_site (dev : Device) (fd : Int) :
    (init_buffers dev fd).All (fun ev => 9 ≤ ev.site ∧ ev.site ≤ 12) := by
  unfold init_buffers
  repeat (first
    | exact All_mono (fun _ h => by omega) (map_buffers_site _ _ _ _)
    | exact All_pure _ | exact All_raise _ | exact All_check _ _
    | exact All_emit_site _ _ _ (Nat.le_of_ble_eq_true rfl) (Nat.le_of_ble_eq_true rfl)
    | exact All_ioctl_site _ _ _ _ _ (Nat.le_of_ble_eq_true rfl) (Nat.le_of_ble_eq_true rfl)
    | (apply All_bind) | (intro _))

theorem release_buffers_site (fd : Int) (buffers : List buffer) :
    (release_buffers fd buffers).All (fun ev => 20 ≤ ev.site ∧ ev.site ≤ 22) := by
  intro ev hev
  simp [release_buffers] at hev
  rcases hev with ⟨b, _, rfl⟩ | rfl | rfl <;>
    exact ⟨Nat.le_of_ble_eq_true rfl, Nat.le_of_ble_eq_true rfl⟩

theorem compress_site : compress.All (fun ev => 23 ≤ ev.site ∧ ev.site ≤ 27) := by
  intro ev hev
  simp [compress] at hev
  rcases hev with rfl | rfl | rfl | rfl | rfl <;>
    exact ⟨Nat.le_of_ble_eq_true rfl, Nat.le_of_ble_eq_true rfl⟩

theorem negotiate_site (dev : Device) (cam_sel : Int) :
    (negotiate dev cam_sel).All (fun ev => 0 ≤ ev.site ∧ ev.site ≤ 5) := by
  unfold negotiate
  repeat (first
    | exact All_mono (fun _ h => by omega) (open_device_site _)
    | exact All_mono (fun _ h => by omega) (verify_input_site _ _)
    | exact All_mono (fun _ h => by omega) (select_camera_site _ _ _)
    | exact All_mono (fun _ h => by omega) (validate_capabilities_site _ _)
    | exact All_mono (fun _ h => by omega) (set_parameters_site _ _)
    | exact All_pure _ | (apply All_bind) | (intro _))

theorem configure_site (dev : Device) (cam_sel exposure gain : Int) :
    (configure dev cam_sel exposure gain).All (fun ev => 0 ≤ ev.site ∧ ev.site ≤ 8) := by
  unfold configure
  repeat (first
    | exact All_mono (fun _ h => by omega) (negotiate_site _ _)
    | exact All_mono (fun _ h => by omega) (set_controls_site _ _ _ _ _)
    | exact All_mono (fun _ h => by omega) (set_cropping_site _ _)
    | exact All_mono (fun _ h => by omega) (set_format_site _ _)
    | exact All_pure _ | (apply All_bind) | (intro _))

theorem start_streaming_site (dev : Device) (cam_sel exposure gain : Int) :
    (start_streaming dev cam_sel exposure gain).All (fun ev => 0 ≤ ev.site ∧ ev.site ≤ 14) := by
  unfold start_streaming
  repeat (first
    | exact All_mono (fun _ h => by omega) (configure_site _ _ _ _)
    | exact All_mono (fun _ h => by omega) (init_buffers_site _ _)
    | exact All_mono (fun _ h => by omega) (queue_buffers_site _ _ _ _)
    | exact All_mono (fun _ h => by omega) (stream_on_site _ _)
    | exact All_pure _ | (apply All_bind) | (intro _))

theorem capture_start_site (dev : Device) (self : cam_device) :
    (capture_start dev self).All (fun ev => 0 ≤ ev.site ∧ ev.site ≤ 14) := by
  unfold capture_start
  repeat (first
    | exact All_mono (fun _ h => by omega) (open_device_site _)
    | exact All_mono (fun _ h => by omega) (verify_input_site _ _)
    | exact All_mono (fun _ h => by omega) (select_camera_site _ _ _)
    | exact All_mono (fun _ h => by omega) (validate_capabilities_site _ _)
    | exact All_mono (fun _ h => by omega) (set_parameters_site _ _)
    | exact All_mono (fun _ h => by omega) (_set_controls_site _ _ _)
    | exact All_mono (fun _ h => by omega) (set_cropping_site _ _)
    | exact All_mono (fun _ h => by omega) (set_format_site _ _)
    | exact All_mono (fun _ h => by omega) (init_buffers_site _ _)
    | exact All_mono (fun _ h => by omega) (queue_buffers_site _ _ _ _)
    | exact All_mono (fun _ h => by omega) (stream_on_site _ _)
    | exact All_pure _ | (apply All_bind) | (intro _))

theorem finish_site (dev : Device) (c : Captured) :
    (finish dev c).All (fun ev => 19 ≤ ev.site ∧ ev.site ≤ 28) := by
  unfold finish
  repeat (first
    | exact All_mono (fun _ h => by omega) (stop_stream_site _ _)
    | exact All_mono (fun _ h => by omega) (release_buffers_site _ _)
    | exact All_mono (fun _ h => by omega) compress_site
    | exact All_mono (fun _ h => by omega) (build_result_site _ _ _)
    | (apply All_bind) | (intro _))

/-! ## C1 -/

/-- C1: for all integers cam_sel, exposure and gain (so for all 32-bit ones),
method_capture fails with a ValueError without opening the device exactly when
cam_sel is outside 0..1 or exposure outside 0..65535 or gain outside 0..1023;
in that case it makes no call at all, and otherwise its first call is the open
of the device. -/
theorem C1_parameter_validation (dev : Device) (cam_sel exposure gain : Int) :
    (((∃ e, (method_capture dev cam_sel exposure gain).res = .raise e ∧ e.exc = .ValueError) ∧
        (∀ r, Event.open_ r ∉ (method_capture dev cam_sel exposure gain).trace)) ↔
      (cam_sel < 0 ∨ 1 < cam_sel ∨ exposure < 0 ∨ 65535 < exposure ∨ gain < 0 ∨ 1023 < gain)) ∧
    ((cam_sel < 0 ∨ 1 < cam_sel ∨ exposure < 0 ∨ 65535 < exposure ∨ gain < 0 ∨ 1023 < gain) →
      (method_capture dev cam_sel exposure gain).trace = []) ∧
    (¬ (cam_sel < 0 ∨ 1 < cam_sel ∨ exposure < 0 ∨ 65535 < exposure ∨ gain < 0 ∨ 1023 < gain) →
      (method_capture dev cam_sel exposure gain).trace.head? = some (.open_ dev.open_)) := by
  have hin : ¬ (cam_sel < 0 ∨ 1 < cam_sel ∨ exposure < 0 ∨ 65535 < exposure ∨ gain < 0 ∨
      1023 < gain) →
      (method_capture dev cam_sel exposure gain).trace.head? = some (.open_ dev.open_) := by
    intro h
    simp only [not_or] at h
    obtain ⟨h1, h2, h3, h4, h5, h6⟩ := h
    have e1 : ¬ (c_bool (cam_sel < 0) ||| c_bool (cam_sel > 1) ≠ 0) := by
      rw [c_bool_or_ne_zero]; simp only [not_or]; exact ⟨h1, h2⟩
    have e2 : ¬ (c_bool (exposure < 0) ||| c_bool (exposure > 65535) ≠ 0) := by
      rw [c_bool_or_ne_zero]; simp only [not_or]; exact ⟨h3, h4⟩
    have e3 : ¬ (c_bool (gain < 0) ||| c_bool (gain > 1023) ≠ 0) := by
      rw [c_bool_or_ne_zero]; simp only [not_or]; exact ⟨h5, h6⟩
    unfold method_capture
    rw [if_neg e1, if_neg e2, if_neg e3]
    exact bind_head _ _ _ (bind_head _ _ _ (bind_head _ _ _ (bind_head _ _ _
      (bind_head _ _ _ (bind_head _ _ _ rfl)))))
  have hout : (cam_sel < 0 ∨ 1 < cam_sel ∨ exposure < 0 ∨ 65535 < exposure ∨ gain < 0 ∨
      1023 < gain) →
      (∃ e, method_capture dev cam_sel exposure gain = ⟨[], .raise e⟩ ∧ e.exc = .ValueError) := by
    intro h
    unfold method_capture
    by_cases e1 : c_bool (cam_sel < 0) ||| c_bool (cam_sel > 1) ≠ 0
    · rw [if_pos e1]; exact ⟨_, rfl, rfl⟩
    · rw [if_neg e1]
      by_cases e2 : c_bool (exposure < 0) ||| c_bool (exposure > 65535) ≠ 0
      · rw [if_pos e2]; exact ⟨_, rfl, rfl⟩
      · rw [if_neg e2]
        by_cases e3 : c_bool (gain < 0) ||| c_bool (gain > 1023) ≠ 0
        · rw [if_pos e3]; exact ⟨_, rfl, rfl⟩
        · exfalso
          rw [c_bool_or_ne_zero] at e1 e2 e3
          simp only [not_or, gt_iff_lt] at e1 e2 e3
          rcases h with h | h | h | h | h | h
          · exact e1.1 h
          · exact e1.2 h
          · exact e2.1 h
          · exact e2.2 h
          · exact e3.1 h
          · exact e3.2 h
  refine ⟨⟨?_, ?_⟩, ?_, hin⟩
  · rintro ⟨_, hno⟩
    by_contra hc
    have := hin hc
    have hm : Event.open_ dev.open_ ∈ (method_capture dev cam_sel exposure gain).trace :=
      List.mem_of_mem_head? this
    exact hno _ hm
  · intro h
    obtain ⟨e, he, hx⟩ := hout h
    rw [he]
    exact ⟨⟨e, rfl, hx⟩, by simp⟩
  · intro h
    obtain ⟨e, he, _⟩ := hout h
    rw [he]

/-! ## The retry loop -/

theorem ioctl_loop_ok {α : Type} (k : Nat) (a : α) (rest : List (Sys α)) :
    ioctl_loop (List.replicate k (Sys.err EINTR) ++ Sys.ok a :: rest) = (k + 1, .val ⟨0, some a⟩) := by
  induction k with
  | zero => rfl
  | succ k ih => simp [List.replicate_succ, ioctl_loop, ih]

theorem ioctl_loop_err {α : Type} (k : Nat) (e : Int) (he : e ≠ EINTR) (rest : List (Sys α)) :
    ioctl_loop (List.replicate k (Sys.err EINTR) ++ Sys.err e :: rest) =
      (k + 1, .val ⟨e, none⟩) := by
  induction k with
  | zero => simp [ioctl_loop, he]
  | succ k ih => simp [List.replicate_succ, ioctl_loop, ih]

theorem _ioctl_ok {α : Type} (fd : Int) (req : Req) (k : Nat) (a : α) (rest : List (Sys α)) :
    _ioctl fd req (List.replicate k (Sys.err EINTR) ++ Sys.ok a :: rest) =
      ⟨[.ioctl fd req (k + 1)], .val ⟨0, some a⟩⟩ := by
  simp [_ioctl, ioctl_loop_ok]

theorem _ioctl_err {α : Type} (fd : Int) (req : Req) (k : Nat) (e : Int) (he : e ≠ EINTR)
    (rest : List (Sys α)) :
    _ioctl fd req (List.replicate k (Sys.err EINTR) ++ Sys.err e :: rest) =
      ⟨[.ioctl fd req (k + 1)], .val ⟨e, none⟩⟩ := by
  simp [_ioctl, ioctl_loop_err, he]

/-! ## C2 -/

theorem verify_input_mismatch (dev : Device) (fd : Int) (k k2 : Nat) (idx : Int) (name : String)
    (rest : List (Sys Int)) (rest2 : List (Sys String))
    (hg : dev.g_input = List.replicate k (Sys.err EINTR) ++ Sys.ok idx :: rest)
    (he : dev.enuminput (u32 idx) = List.replicate k2 (Sys.err EINTR) ++ Sys.ok name :: rest2)
    (hn : name ≠ "CSI MEM") :
    verify_input dev fd =
      ⟨[.ioctl fd .VIDIOC_G_INPUT (k + 1), .ioctl fd (.VIDIOC_ENUMINPUT (u32 idx)) (k2 + 1)],
        .raise (PyErr_Format .IOError "video input (%s) is not 'CSI MEM' " [.s name])⟩ := by
  simp [verify_input, bind_eq, hg, _ioctl_ok, check, pure_eq, he, hn, raise]

/-- With all three parameters in range method_capture is the acquisition followed by the release. -/
theorem method_capture_in_range (dev : Device) (cam_sel exposure gain : Int)
    (hc : 0 ≤ cam_sel ∧ cam_sel ≤ 1) (he : 0 ≤ exposure ∧ exposure ≤ 65535)
    (hg : 0 ≤ gain ∧ gain ≤ 1023) :
    method_capture dev cam_sel exposure gain =
      Run.bind (acquire dev cam_sel exposure gain) (finish dev) := by
  have e1 : ¬ (c_bool (cam_sel < 0) ||| c_bool (cam_sel > 1) ≠ 0) := by
    rw [c_bool_or_ne_zero]; omega
  have e2 : ¬ (c_bool (exposure < 0) ||| c_bool (exposure > 65535) ≠ 0) := by
    rw [c_bool_or_ne_zero]; omega
  have e3 : ¬ (c_bool (gain < 0) ||| c_bool (gain > 1023) ≠ 0) := by
    rw [c_bool_or_ne_zero]; omega
  unfold method_capture
  rw [if_neg e1, if_neg e2, if_neg e3]
  rfl

theorem open_device_ok (dev : Device) (ho : dev.open_ ≠ -1) :
    open_device dev = ⟨[.open_ dev.open_], .val dev.open_⟩ := by
  simp [open_device, bind_eq, emit, check, ho, pure_eq]

/-- C2: on a device that opens and whose active input (the index answered to
VIDIOC_G_INPUT, the name answered to VIDIOC_ENUMINPUT for it, each possibly
after interrupted attempts) has a name other than "CSI MEM", both
method_capture (gfcam.c, parameters in range) and capture (cam.c) make exactly
the calls open, G_INPUT, ENUMINPUT and fail with the IOError
"video input (%s) is not 'CSI MEM' " whose %s argument is that name; no buffer
request, buffer query or mmap is among the calls. -/
theorem C2_input_mismatch (dev : Device) (self : cam_device) (cam_sel exposure gain : Int)
    (k k2 : Nat) (idx : Int) (name : String) (rest : List (Sys Int)) (rest2 : List (Sys String))
    (hc : 0 ≤ cam_sel ∧ cam_sel ≤ 1) (he : 0 ≤ exposure ∧ exposure ≤ 65535)
    (hg : 0 ≤ gain ∧ gain ≤ 1023)
    (ho : dev.open_ ≠ -1)
    (hgi : dev.g_input = List.replicate k (Sys.err EINTR) ++ Sys.ok idx :: rest)
    (hen : dev.enuminput (u32 idx) = List.replicate k2 (Sys.err EINTR) ++ Sys.ok name :: rest2)
    (hn : name ≠ "CSI MEM") :
    method_capture dev cam_sel exposure gain =
      ⟨[.open_ dev.open_, .ioctl dev.open_ .VIDIOC_G_INPUT (k + 1),
        .ioctl dev.open_ (.VIDIOC_ENUMINPUT (u32 idx)) (k2 + 1)],
        .raise (PyErr_Format .IOError "video input (%s) is not 'CSI MEM' " [.s name])⟩ ∧
    capture dev self =
      ⟨[.open_ dev.open_, .ioctl dev.open_ .VIDIOC_G_INPUT (k + 1),
        .ioctl dev.open_ (.VIDIOC_ENUMINPUT (u32 idx)) (k2 + 1)],
        .raise (PyErr_Format .IOError "video input (%s) is not 'CSI MEM' " [.s name])⟩ ∧
    (∀ ev ∈ (method_capture dev cam_sel exposure gain).trace, ev.allocates_buffer = false) ∧
    (∀ ev ∈ (capture dev self).trace, ev.allocates_buffer = false) := by
  have h1 : method_capture dev cam_sel exposure gain =
      ⟨[.open_ dev.open_, .ioctl dev.open_ .VIDIOC_G_INPUT (k + 1),
        .ioctl dev.open_ (.VIDIOC_ENUMINPUT (u32 idx)) (k2 + 1)],
        .raise (PyErr_Format .IOError "video input (%s) is not 'CSI MEM' " [.s name])⟩ := by
    rw [method_capture_in_range dev cam_sel exposure gain hc he hg]
    simp [acquire, start_streaming, configure, negotiate, bind_eq, open_device_ok dev ho,
      verify_input_mismatch dev dev.open_ k k2 idx name rest rest2 hgi hen hn]
  have h2 : capture dev self =
      ⟨[.open_ dev.open_, .ioctl dev.open_ .VIDIOC_G_INPUT (k + 1),
        .ioctl dev.open_ (.VIDIOC_ENUMINPUT (u32 idx)) (k2 + 1)],
        .raise (PyErr_Format .IOError "video input (%s) is not 'CSI MEM' " [.s name])⟩ := by
    simp [capture, capture_start, bind_eq, open_device_ok dev ho,
      verify_input_mismatch dev dev.open_ k k2 idx name rest rest2 hgi hen hn]
  refine ⟨h1, h2, ?_, ?_⟩
  · rw [h1]; simp [Event.allocates_buffer]
  · rw [h2]; simp [Event.allocates_buffer]

/-- C2 at a device whose only input is named "CSI IC MEM", the first
VIDIOC_G_INPUT call being interrupted once. -/
theorem C2_input_mismatch_witness :
    (method_capture { nominal with g_input := [.err EINTR, .ok 0],
                                   enuminput := fun _ => [.ok "CSI IC MEM"] } 0 3000 30).res =
      .raise (PyErr_Format .IOError "video input (%s) is not 'CSI MEM' " [.s "CSI IC MEM"]) ∧
    (capture { nominal with g_input := [.err EINTR, .ok 0],
                            enuminput := fun _ => [.ok "CSI IC MEM"] } ⟨0, none, 0, 0, 0⟩).res =
      .raise (PyErr_Format .IOError "video input (%s) is not 'CSI MEM' " [.s "CSI IC MEM"]) := by
  have h := C2_input_mismatch
    { nominal with g_input := [.err EINTR, .ok 0], enuminput := fun _ => [.ok "CSI IC MEM"] }
    ⟨0, none, 0, 0, 0⟩ 0 3000 30 1 0 0 "CSI IC MEM" [] []
    (by decide) (by decide) (by decide) (by decide) rfl rfl (by decide)
  exact ⟨by rw [h.1], by rw [h.2.1]⟩

/-! ## Taking runs apart -/

/-- A sequence that ends with a value: both parts do, and the traces concatenate. -/
theorem bind_eq_val {α β : Type} {x : Run α} {f : α → Run β} {t : List Event} {b : β}
    (h : x >>= f = ⟨t, .val b⟩) :
    ∃ t1 a t2, x = ⟨t1, .val a⟩ ∧ f a = ⟨t2, .val b⟩ ∧ t = t1 ++ t2 := by
  obtain ⟨t1, r⟩ := x
  cases r with
  | val a =>
    simp only [bind_eq, bind_val, Run.mk.injEq] at h
    refine ⟨t1, a, (f a).trace, rfl, ?_, h.1.symm⟩
    cases hfa : f a with
    | mk t2 r2 => rw [hfa] at h; simp only at h; rw [h.2]
  | raise e => simp [bind_eq] at h
  | hang => simp [bind_eq] at h

/-- The trace of a sequence is the trace of the first part followed by calls of the second. -/
theorem bind_trace_split {α β : Type} {P : Event → Prop} (x : Run α) (f : α → Run β)
    (hf : ∀ a, (f a).All P) :
    ∃ t2, (x >>= f).trace = x.trace ++ t2 ∧ ∀ ev ∈ t2, P ev := by
  obtain ⟨t1, r⟩ := x
  cases r with
  | val a => exact ⟨(f a).trace, rfl, hf a⟩
  | raise e => exact ⟨[], by simp [bind_eq], by simp⟩
  | hang => exact ⟨[], by simp [bind_eq], by simp⟩

/-- A raised exception comes from the first part, or from the second after a value. -/
theorem bind_res_raise {α β : Type} {x : Run α} {f : α → Run β} {e : PyErr}
    (h : (x >>= f).res = .raise e) :
    ((x >>= f).trace = x.trace ∧ x.res = .raise e) ∨ ∃ a, x.res = .val a ∧ (f a).res = .raise e := by
  obtain ⟨t1, r⟩ := x
  cases r with
  | val a => exact Or.inr ⟨a, rfl, h⟩
  | raise e1 => exact Or.inl ⟨rfl, by simpa [bind_eq] using h⟩
  | hang => simp [bind_eq] at h

theorem after_append (r : Resources) (t1 t2 : List Event) :
    Resources.after r (t1 ++ t2) = Resources.after (Resources.after r t1) t2 := by
  simp [Resources.after, List.foldl_append]

/-! ## C3 -/

/-- Calls made before the first mapping leave the mapped regions as they are. -/
theorem after_maps_of_site_le (t : List Event) (r : Resources)
    (h : ∀ ev ∈ t, ev.site ≤ 11) : (Resources.after r t).maps = r.maps := by
  induction t generalizing r with
  | nil => rfl
  | cons ev t ih =>
    have hev : ev.site ≤ 11 := h ev (List.mem_cons_self _ _)
    have ht : ∀ e ∈ t, e.site ≤ 11 := fun e he => h e (List.mem_cons_of_mem _ he)
    have hs : (r.step ev).maps = r.maps := by
      cases ev with
      | open_ ret => simp only [Resources.step]; split <;> rfl
      | ioctl fd req n => rfl
      | calloc n ok => cases ok <;> rfl
      | _ => simp [Event.site] at hev
    show (Resources.after (r.step ev) t).maps = r.maps
    rw [ih _ ht, hs]

theorem init_buffers_insufficient (dev : Device) (fd : Int) (k n : Nat) (rest : List (Sys Nat))
    (hr : dev.reqbufs = List.replicate k (Sys.err EINTR) ++ Sys.ok n :: rest) (hn : n < 2) :
    init_buffers dev fd =
      ⟨[.ioctl fd (.VIDIOC_REQBUFS 2) (k + 1)],
        .raise (PyErr_Format .IOError "Insufficient buffers" [])⟩ := by
  have h2 : n % 4294967296 < 2 := by omega
  simp [init_buffers, bind_eq, hr, _ioctl_ok, check, pure_eq, raise, h2]

/-- C3: whenever method_capture (parameters in range) gets through the
configuration (lines 102-193) and the device answers the buffer request,
possibly after interrupted attempts, by granting n < 2 buffers, the run is the
configuration calls followed by the one buffer request, it fails with the
IOError "Insufficient buffers", no mmap call is made, and the mapped regions
at return are those held before the call (none when starting from none). -/
theorem C3_insufficient_buffers (dev : Device) (cam_sel exposure gain : Int)
    (tr : List Event) (fd : Int) (k n : Nat) (rest : List (Sys Nat))
    (hc : 0 ≤ cam_sel ∧ cam_sel ≤ 1) (he : 0 ≤ exposure ∧ exposure ≤ 65535)
    (hg : 0 ≤ gain ∧ gain ≤ 1023)
    (hcfg : configure dev cam_sel exposure gain = ⟨tr, .val fd⟩)
    (hr : dev.reqbufs = List.replicate k (Sys.err EINTR) ++ Sys.ok n :: rest)
    (hn : n < 2) :
    method_capture dev cam_sel exposure gain =
      ⟨tr ++ [.ioctl fd (.VIDIOC_REQBUFS 2) (k + 1)],
        .raise (PyErr_Format .IOError "Insufficient buffers" [])⟩ ∧
    (∀ ev ∈ (method_capture dev cam_sel exposure gain).trace,
      ∀ length f offset ret, ev ≠ .mmap length f offset ret) ∧
    (∀ r0 : Resources,
      (Resources.after r0 (method_capture dev cam_sel exposure gain).trace).maps = r0.maps) ∧
    (Resources.after ⟨[], [], []⟩ (method_capture dev cam_sel exposure gain).trace).maps.length
      = 0 := by
  have h1 : method_capture dev cam_sel exposure gain =
      ⟨tr ++ [.ioctl fd (.VIDIOC_REQBUFS 2) (k + 1)],
        .raise (PyErr_Format .IOError "Insufficient buffers" [])⟩ := by
    rw [method_capture_in_range dev cam_sel exposure gain hc he hg]
    simp [acquire, start_streaming, bind_eq, hcfg, init_buffers_insufficient dev fd k n rest hr hn]
  have hp : ∀ ev ∈ tr, 0 ≤ ev.site ∧ ev.site ≤ 8 := by
    have := configure_site dev cam_sel exposure gain
    rw [hcfg] at this
    exact this
  have hall : ∀ ev ∈ (method_capture dev cam_sel exposure gain).trace, ev.site ≤ 11 := by
    rw [h1]
    intro ev hev
    simp only [List.mem_append, List.mem_singleton] at hev
    rcases hev with h | h
    · have := (hp ev h).2; omega
    · rw [h]; exact Nat.le_of_ble_eq_true rfl
  have hm : ∀ r0 : Resources,
      (Resources.after r0 (method_capture dev cam_sel exposure gain).trace).maps = r0.maps :=
    fun r0 => after_maps_of_site_le _ r0 hall
  refine ⟨h1, ?_, hm, ?_⟩
  · intro ev hev length f offset ret heq
    have := hall ev hev
    rw [heq] at this
    simp [Event.site] at this
  · rw [hm]; rfl

/-- C3 at the nominal device changed to grant a single buffer. -/
theorem C3_insufficient_buffers_witness :
    (method_capture { nominal with reqbufs := [.ok 1] } 0 3000 30).res =
      .raise (PyErr_Format .IOError "Insufficient buffers" []) ∧
    (Resources.after ⟨[], [], []⟩
      (method_capture { nominal with reqbufs := [.ok 1] } 0 3000 30).trace).maps.length = 0 := by
  have h := C3_insufficient_buffers { nominal with reqbufs := [.ok 1] } 0 3000 30
    (configure { nominal with reqbufs := [.ok 1] } 0 3000 30).trace 3 0 1 []
    (by decide) (by decide) (by decide) (by rfl) rfl (by decide)
  exact ⟨by rw [h.1], h.2.2.2⟩

/-! ## C4 -/

theorem set_control_requests_append (t1 t2 : List Event) :
    set_control_requests (t1 ++ t2) = set_control_requests t1 ++ set_control_requests t2 := by
  simp [set_control_requests]

theorem set_control_requests_eq_nil (t : List Event) (h : ∀ ev ∈ t, ev.set_control = none) :
    set_control_requests t = [] := by
  simp only [set_control_requests, List.filterMap_eq_nil_iff]
  exact h

/-- Only calls at site 3 are set-control requests. -/
theorem set_control_none_of_site (ev : Event) (h : ev.site ≠ 3) : ev.set_control = none := by
  cases ev with
  | ioctl fd req n => cases req <;> simp [Event.site, Req.site] at h <;> rfl
  | _ => rfl

/-- A run whose calls all lie in a range of sites without 3 makes no set-control request. -/
theorem no_set_control {α : Type} (x : Run α) (lo hi : Nat) (h : 3 < lo ∨ hi < 3)
    (hx : x.All (fun ev => lo ≤ ev.site ∧ ev.site ≤ hi)) :
    x.All (fun ev => ev.set_control = none) :=
  All_mono (fun ev hev => set_control_none_of_site ev (by omega)) hx

/-- A completed negotiation made exactly one set-control request: the camera selection. -/
theorem negotiate_set_control (dev : Device) (cam_sel : Int) (tr : List Event) (fd : Int)
    (h : negotiate dev cam_sel = ⟨tr, .val fd⟩) :
    set_control_requests tr = [(.V4L2_CID_GLOWFORGE_SEL_CAM, cam_sel)] := by
  unfold negotiate at h
  obtain ⟨t1, fd1, u1, h1, k1, rfl⟩ := bind_eq_val h
  obtain ⟨t2, _, u2, h2, k2, rfl⟩ := bind_eq_val k1
  obtain ⟨t3, _, u3, h3, k3, rfl⟩ := bind_eq_val k2
  obtain ⟨t4, _, u4, h4, k4, rfl⟩ := bind_eq_val k3
  obtain ⟨t5, _, u5, h5, k5, rfl⟩ := bind_eq_val k4
  have e1 : set_control_requests t1 = [] := by
    apply set_control_requests_eq_nil
    have := no_set_control _ 0 0 (Or.inr (by omega)) (open_device_site dev)
    rw [h1] at this; exact this
  have e2 : set_control_requests t2 = [] := by
    apply set_control_requests_eq_nil
    have := no_set_control _ 1 2 (Or.inr (by omega)) (verify_input_site dev fd1)
    rw [h2] at this; exact this
  have e4 : set_control_requests t4 = [] := by
    apply set_control_requests_eq_nil
    have := no_set_control _ 4 4 (Or.inl (by omega)) (validate_capabilities_site dev fd1)
    rw [h4] at this; exact this
  have e5 : set_control_requests t5 = [] := by
    apply set_control_requests_eq_nil
    have := no_set_control _ 5 5 (Or.inl (by omega)) (set_parameters_site dev fd1)
    rw [h5] at this; exact this
  have e6 : u5 = [] := by
    simp only [pure_eq, Run.mk.injEq] at k5; exact k5.1.symm
  have e3 : set_control_requests t3 = [(.V4L2_CID_GLOWFORGE_SEL_CAM, cam_sel)] := by
    unfold select_camera at h3
    obtain ⟨v1, r, v2, g1, g2, rfl⟩ := bind_eq_val h3
    have hv1 : v1 = [.ioctl fd1 (.VIDIOC_S_CTRL .V4L2_CID_GLOWFORGE_SEL_CAM cam_sel)
        (ioctl_loop (dev.s_ctrl .V4L2_CID_GLOWFORGE_SEL_CAM cam_sel)).1] := by
      simp only [_ioctl, Run.mk.injEq] at g1; exact g1.1.symm
    have hv2 : v2 = [] := by
      unfold check at g2
      split at g2
      · simp [raise] at g2
      · simp only [pure_eq, Run.mk.injEq] at g2; exact g2.1.symm
    rw [hv1, hv2]; rfl
  simp [set_control_requests_append, e1, e2, e3, e4, e5, e6]

/-- The values sent for the table entries: only "exposure" and "gain" are overridden. -/
theorem control_values (exposure gain : Int) :
    (cam_controls.take NUM_CAM_CONTROLS).map (fun c => (c.cid, control_value c exposure gain)) =
      [(.V4L2_CID_EXPOSURE_AUTO, 0), (.V4L2_CID_EXPOSURE, exposure), (.V4L2_CID_AUTOGAIN, 0),
       (.V4L2_CID_GAIN, gain), (.V4L2_CID_AUTO_WHITE_BALANCE, 2), (.V4L2_CID_RED_BALANCE, 1100),
       (.V4L2_CID_BLUE_BALANCE, 1400), (.V4L2_CID_FLASH_LED_MODE, 2),
       (.V4L2_CID_FLASH_TORCH_INTENSITY, 0), (.V4L2_CID_HFLIP, 1), (.V4L2_CID_VFLIP, 0)] := by
  rfl

/-- When every entry applies, the control loop issues one request per entry, in order. -/
theorem set_controls_ok (dev : Device) (fd exposure gain : Int) (l : List cam_control)
    (h : ∀ c ∈ l, ∃ k rest, dev.s_ctrl c.cid (control_value c exposure gain) =
      List.replicate k (Sys.err EINTR) ++ Sys.ok () :: rest) :
    ∃ t, set_controls dev fd exposure gain l = ⟨t, .val ()⟩ ∧
      set_control_requests t = l.map (fun c => (c.cid, control_value c exposure gain)) := by
  induction l with
  | nil => exact ⟨[], rfl, rfl⟩
  | cons c l ih =>
    obtain ⟨k, rest, hk⟩ := h c (List.mem_cons_self _ _)
    obtain ⟨t, ht, hs⟩ := ih (fun c hc => h c (List.mem_cons_of_mem _ hc))
    refine ⟨.ioctl fd (.VIDIOC_S_CTRL c.cid (control_value c exposure gain)) (k + 1) :: t, ?_, ?_⟩
    · simp [set_controls, bind_eq, hk, _ioctl_ok, check, pure_eq, ht]
    · simp only [set_control_requests, List.filterMap_cons, Event.set_control, List.map_cons]
      rw [← set_control_requests, hs]

/-- C4: whenever method_capture (parameters in range) gets through lines
102-145 and every table control applies (its request is answered with success,
possibly after interrupted attempts), the set-control requests it issues for
the ids of the table are exactly 11, in table order, with the values 0,
exposure, 0, gain, 2, 1100, 1400, 2, 0, 1, 0: only the entries named
"exposure" and "gain" carry the caller's value.  The only other set-control
request of the run is the camera selection of line 125, which comes first. -/
theorem C4_controls_in_table_order (dev : Device) (cam_sel exposure gain : Int)
    (tr : List Event) (fd : Int)
    (hc : 0 ≤ cam_sel ∧ cam_sel ≤ 1) (he : 0 ≤ exposure ∧ exposure ≤ 65535)
    (hg : 0 ≤ gain ∧ gain ≤ 1023)
    (hneg : negotiate dev cam_sel = ⟨tr, .val fd⟩)
    (hok : ∀ c ∈ cam_controls.take NUM_CAM_CONTROLS, ∃ k rest,
      dev.s_ctrl c.cid (control_value c exposure gain) =
        List.replicate k (Sys.err EINTR) ++ Sys.ok () :: rest) :
    table_control_requests (method_capture dev cam_sel exposure gain).trace =
      [(.V4L2_CID_EXPOSURE_AUTO, 0), (.V4L2_CID_EXPOSURE, exposure), (.V4L2_CID_AUTOGAIN, 0),
       (.V4L2_CID_GAIN, gain), (.V4L2_CID_AUTO_WHITE_BALANCE, 2), (.V4L2_CID_RED_BALANCE, 1100),
       (.V4L2_CID_BLUE_BALANCE, 1400), (.V4L2_CID_FLASH_LED_MODE, 2),
       (.V4L2_CID_FLASH_TORCH_INTENSITY, 0), (.V4L2_CID_HFLIP, 1), (.V4L2_CID_VFLIP, 0)] ∧
    (table_control_requests (method_capture dev cam_sel exposure gain).trace).length = 11 ∧
    set_control_requests (method_capture dev cam_sel exposure gain).trace =
      (.V4L2_CID_GLOWFORGE_SEL_CAM, cam_sel) ::
      [(.V4L2_CID_EXPOSURE_AUTO, 0), (.V4L2_CID_EXPOSURE, exposure), (.V4L2_CID_AUTOGAIN, 0),
       (.V4L2_CID_GAIN, gain), (.V4L2_CID_AUTO_WHITE_BALANCE, 2), (.V4L2_CID_RED_BALANCE, 1100),
       (.V4L2_CID_BLUE_BALANCE, 1400), (.V4L2_CID_FLASH_LED_MODE, 2),
       (.V4L2_CID_FLASH_TORCH_INTENSITY, 0), (.V4L2_CID_HFLIP, 1), (.V4L2_CID_VFLIP, 0)] := by
  suffices hfull : set_control_requests (method_capture dev cam_sel exposure gain).trace =
      (.V4L2_CID_GLOWFORGE_SEL_CAM, cam_sel) ::
      [(.V4L2_CID_EXPOSURE_AUTO, 0), (.V4L2_CID_EXPOSURE, exposure), (.V4L2_CID_AUTOGAIN, 0),
       (.V4L2_CID_GAIN, gain), (.V4L2_CID_AUTO_WHITE_BALANCE, 2), (.V4L2_CID_RED_BALANCE, 1100),
       (.V4L2_CID_BLUE_BALANCE, 1400), (.V4L2_CID_FLASH_LED_MODE, 2),
       (.V4L2_CID_FLASH_TORCH_INTENSITY, 0), (.V4L2_CID_HFLIP, 1), (.V4L2_CID_VFLIP, 0)] by
    have htab : table_control_requests (method_capture dev cam_sel exposure gain).trace =
        [(.V4L2_CID_EXPOSURE_AUTO, 0), (.V4L2_CID_EXPOSURE, exposure), (.V4L2_CID_AUTOGAIN, 0),
         (.V4L2_CID_GAIN, gain), (.V4L2_CID_AUTO_WHITE_BALANCE, 2),
         (.V4L2_CID_RED_BALANCE, 1100), (.V4L2_CID_BLUE_BALANCE, 1400),
         (.V4L2_CID_FLASH_LED_MODE, 2), (.V4L2_CID_FLASH_TORCH_INTENSITY, 0),
         (.V4L2_CID_HFLIP, 1), (.V4L2_CID_VFLIP, 0)] := by
      unfold table_control_requests
      rw [hfull]
      rfl
    exact ⟨htab, by rw [htab]; rfl, hfull⟩
  obtain ⟨tc, htc, hsc⟩ := set_controls_ok dev fd exposure gain _ hok
  rw [control_values] at hsc
  rw [method_capture_in_range dev cam_sel exposure gain hc he hg]
  obtain ⟨t4, e4, p4⟩ := bind_trace_split (P := fun ev => ev.set_control = none)
    (acquire dev cam_sel exposure gain) (finish dev)
    (fun c => no_set_control _ 19 28 (Or.inl (by omega)) (finish_site dev c))
  rw [← bind_eq, e4]
  unfold acquire
  obtain ⟨t3, e3, p3⟩ := bind_trace_split (P := fun ev => ev.set_control = none)
    (start_streaming dev cam_sel exposure gain)
    (fun s => do
      let index ← select_loop dev s.1 0 dev.select
      let rgb ← convert dev index
      pure (⟨s.1, s.2, index, rgb⟩ : Captured))
    (fun s => All_bind (no_set_control _ 15 16 (Or.inl (by omega)) (select_loop_site _ _ _ _))
      (fun _ => All_bind (no_set_control _ 17 18 (Or.inl (by omega)) (convert_site _ _))
        (fun _ => All_pure _)))
  rw [e3]
  unfold start_streaming
  obtain ⟨t2, e2, p2⟩ := bind_trace_split (P := fun ev => ev.set_control = none)
    (configure dev cam_sel exposure gain)
    (fun dev_fd => do
      let buffers ← init_buffers dev dev_fd
      queue_buffers dev dev_fd buffers.length 0
      stream_on dev dev_fd
      pure (dev_fd, buffers))
    (fun s => All_bind (no_set_control _ 9 12 (Or.inl (by omega)) (init_buffers_site _ _))
      (fun _ => All_bind (no_set_control _ 13 13 (Or.inl (by omega)) (queue_buffers_site _ _ _ _))
        (fun _ => All_bind (no_set_control _ 14 14 (Or.inl (by omega)) (stream_on_site _ _))
          (fun _ => All_pure _))))
  rw [e2]
  unfold configure
  rw [hneg]
  simp only [bind_eq, bind_val, htc]
  obtain ⟨t1, e1, p1⟩ := bind_trace_split (P := fun ev => ev.set_control = none)
    (set_cropping dev fd) (fun _ => do set_format dev fd; pure fd)
    (fun _ => All_bind (no_set_control _ 8 8 (Or.inl (by omega)) (set_format_site _ _))
      (fun _ => All_pure _))
  simp only [bind_eq] at e1
  rw [e1]
  have q1 := set_control_requests_eq_nil _ p1
  have q2 := set_control_requests_eq_nil _ p2
  have q3 := set_control_requests_eq_nil _ p3
  have q4 := set_control_requests_eq_nil _ p4
  have q0 := set_control_requests_eq_nil _
    (no_set_control _ 6 7 (Or.inl (by omega)) (set_cropping_site dev fd))
  simp only [set_control_requests_append, negotiate_set_control dev cam_sel tr fd hneg, hsc,
    q0, q1, q2, q3, q4, List.append_nil]
  rfl

/-- C4 at the nominal device with exposure 4000 and gain 100. -/
theorem C4_controls_in_table_order_witness :
    table_control_requests (method_capture nominal 1 4000 100).trace =
      [(.V4L2_CID_EXPOSURE_AUTO, 0), (.V4L2_CID_EXPOSURE, 4000), (.V4L2_CID_AUTOGAIN, 0),
       (.V4L2_CID_GAIN, 100), (.V4L2_CID_AUTO_WHITE_BALANCE, 2), (.V4L2_CID_RED_BALANCE, 1100),
       (.V4L2_CID_BLUE_BALANCE, 1400), (.V4L2_CID_FLASH_LED_MODE, 2),
       (.V4L2_CID_FLASH_TORCH_INTENSITY, 0), (.V4L2_CID_HFLIP, 1), (.V4L2_CID_VFLIP, 0)] :=
  (C4_controls_in_table_order nominal 1 4000 100 (negotiate nominal 1).trace 3
    (by decide) (by decide) (by decide) (by rfl) (fun _ _ => ⟨0, [], rfl⟩)).1

/-! ## C5 -/

/-- C5, the code at a failing input: on the nominal device changed so that
the set-control request of table entry 0 (exposure-auto) fails with EINVAL
(22), `_ioctl` returns 22, the test `< 0` of line 160 is false, and
method_capture neither aborts nor raises: it issues the ten later controls, the
crop, format and buffer requests, and returns a JPEG. -/
theorem C5_failed_control_is_ignored :
    (_ioctl 3 (.VIDIOC_S_CTRL .V4L2_CID_EXPOSURE_AUTO 0) [(Sys.err 22 : Sys Unit)]).res =
      .val ⟨22, none⟩ ∧
    (method_capture { nominal with
        s_ctrl := fun id _ => if id = .V4L2_CID_EXPOSURE_AUTO then [.err 22] else [.ok ()] }
      0 3000 30).res = .val ⟨1⟩ ∧
    set_control_requests (method_capture { nominal with
        s_ctrl := fun id _ => if id = .V4L2_CID_EXPOSURE_AUTO then [.err 22] else [.ok ()] }
      0 3000 30).trace =
      [(.V4L2_CID_GLOWFORGE_SEL_CAM, 0),
       (.V4L2_CID_EXPOSURE_AUTO, 0), (.V4L2_CID_EXPOSURE, 3000), (.V4L2_CID_AUTOGAIN, 0),
       (.V4L2_CID_GAIN, 30), (.V4L2_CID_AUTO_WHITE_BALANCE, 2), (.V4L2_CID_RED_BALANCE, 1100),
       (.V4L2_CID_BLUE_BALANCE, 1400), (.V4L2_CID_FLASH_LED_MODE, 2),
       (.V4L2_CID_FLASH_TORCH_INTENSITY, 0), (.V4L2_CID_HFLIP, 1), (.V4L2_CID_VFLIP, 0)] ∧
    Event.ioctl 3 (.VIDIOC_REQBUFS 2) 1 ∈ (method_capture { nominal with
        s_ctrl := fun id _ => if id = .V4L2_CID_EXPOSURE_AUTO then [.err 22] else [.ok ()] }
      0 3000 30).trace := by
  refine ⟨by rfl, by rfl, by rfl, by decide⟩

/-! ## C8 -/

/-- C8, the code at a failing input: on the nominal device changed so that
the first dequeue request fails with EAGAIN (a second wait and a dequeue
answering buffer 1 being available), `_ioctl` returns 11, the test `< 0` of
line 273 is false and the loop breaks: method_capture makes one wait and one
dequeue request only, converts buffers[0] (buf.index as CLEAR left it) and
returns a JPEG made from it.  The same loop in capture of cam.c (lines
251-257) likewise returns the bytes of buffers[0] after a single wait. -/
theorem C8_failed_dequeue_is_taken_as_a_frame :
    (method_capture { nominal with
        select := [⟨1, 0⟩, ⟨1, 0⟩],
        dqbuf := fun j => if j = 0 then [.err EAGAIN] else [.ok 1] } 0 3000 30).res = .val ⟨0⟩ ∧
    waits (method_capture { nominal with
        select := [⟨1, 0⟩, ⟨1, 0⟩],
        dqbuf := fun j => if j = 0 then [.err EAGAIN] else [.ok 1] } 0 3000 30).trace =
      [.select 3 2 0] ∧
    dequeues (method_capture { nominal with
        select := [⟨1, 0⟩, ⟨1, 0⟩],
        dqbuf := fun j => if j = 0 then [.err EAGAIN] else [.ok 1] } 0 3000 30).trace =
      [.ioctl 3 .VIDIOC_DQBUF 1] ∧
    converted (method_capture { nominal with
        select := [⟨1, 0⟩, ⟨1, 0⟩],
        dqbuf := fun j => if j = 0 then [.err EAGAIN] else [.ok 1] } 0 3000 30).trace = [0] ∧
    (capture { nominal with
        select := [⟨1, 0⟩, ⟨1, 0⟩],
        dqbuf := fun j => if j = 0 then [.err EAGAIN] else [.ok 1] } ⟨0, none, 0, 0, 0⟩).res =
      .val ⟨0⟩ ∧
    waits (capture { nominal with
        select := [⟨1, 0⟩, ⟨1, 0⟩],
        dqbuf := fun j => if j = 0 then [.err EAGAIN] else [.ok 1] } ⟨0, none, 0, 0, 0⟩).trace =
      [.select 3 2 0] := by
  refine ⟨by rfl, by rfl, by rfl, by rfl, by rfl, by rfl⟩

/-! ## C6 -/

/-- The retry loop never raises. -/
theorem ioctl_loop_ne_raise {α : Type} (answers : List (Sys α)) (e : PyErr) :
    (ioctl_loop answers).2 ≠ .raise e := by
  induction answers with
  | nil => simp [ioctl_loop]
  | cons a rest ih =>
    cases a with
    | ok a => simp [ioctl_loop]
    | err errno =>
      simp only [ioctl_loop]
      split
      · simp
      · exact ih

/-- Outside the parameter ranges method_capture makes no call and raises. -/
theorem method_capture_cases (dev : Device) (cam_sel exposure gain : Int) :
    (∃ e, method_capture dev cam_sel exposure gain = ⟨[], .raise e⟩) ∨
    method_capture dev cam_sel exposure gain =
      Run.bind (acquire dev cam_sel exposure gain) (finish dev) := by
  unfold method_capture
  split
  · left; exact ⟨_, rfl⟩
  · split
    · left; exact ⟨_, rfl⟩
    · split
      · left; exact ⟨_, rfl⟩
      · right; rfl

theorem select_loop_timeout (dev : Device) (fd : Int) (j k : Nat) (last : Sel) (rest : List Sel)
    (h : last.ret = 0) :
    select_loop dev fd j (List.replicate k ⟨-1, EINTR⟩ ++ last :: rest) =
      ⟨List.replicate (k + 1) (.select fd 2 0),
        .raise (PyErr_Format .IOError "select timeout" [])⟩ := by
  induction k with
  | zero => simp [select_loop, bind_eq, emit, h, raise]
  | succ k ih =>
    have hstep : select_loop dev fd j
        (⟨-1, EINTR⟩ :: (List.replicate k ⟨-1, EINTR⟩ ++ last :: rest)) =
        Run.bind (emit (.select fd 2 0))
          (fun _ => select_loop dev fd j (List.replicate k ⟨-1, EINTR⟩ ++ last :: rest)) := by
      simp [select_loop, bind_eq]
    rw [List.replicate_succ, List.cons_append, hstep, ih]
    rfl

theorem select_loop_error (dev : Device) (fd : Int) (j k : Nat) (last : Sel) (rest : List Sel)
    (h : last.ret = -1) (he : last.errno ≠ EINTR) :
    select_loop dev fd j (List.replicate k ⟨-1, EINTR⟩ ++ last :: rest) =
      ⟨List.replicate (k + 1) (.select fd 2 0),
        .raise (PyErr_Format .IOError "select failed" [])⟩ := by
  induction k with
  | zero => simp [select_loop, bind_eq, emit, h, raise, Ne.symm he]
  | succ k ih =>
    have hstep : select_loop dev fd j
        (⟨-1, EINTR⟩ :: (List.replicate k ⟨-1, EINTR⟩ ++ last :: rest)) =
        Run.bind (emit (.select fd 2 0))
          (fun _ => select_loop dev fd j (List.replicate k ⟨-1, EINTR⟩ ++ last :: rest)) := by
      simp [select_loop, bind_eq]
    rw [List.replicate_succ, List.cons_append, hstep, ih]
    rfl

theorem waits_append (t1 t2 : List Event) : waits (t1 ++ t2) = waits t1 ++ waits t2 := by
  simp [waits]

theorem dequeues_append (t1 t2 : List Event) :
    dequeues (t1 ++ t2) = dequeues t1 ++ dequeues t2 := by
  simp [dequeues]

theorem waits_eq_nil (t : List Event) (h : ∀ ev ∈ t, ev.site ≠ 15) : waits t = [] := by
  simp only [waits, List.filter_eq_nil_iff]
  intro ev hev
  have hs := h ev hev
  cases ev with
  | select fd a b => simp [Event.site] at hs
  | _ => simp [Event.is_select]

theorem dequeues_eq_nil (t : List Event) (h : ∀ ev ∈ t, ev.site ≠ 16) : dequeues t = [] := by
  simp only [dequeues, List.filter_eq_nil_iff]
  intro ev hev
  have hs := h ev hev
  cases ev with
  | ioctl fd req n => cases req <;> simp [Event.site, Req.site] at hs <;> simp [Event.is_dequeue]
  | _ => simp [Event.is_dequeue]

theorem waits_replicate (n : Nat) (fd : Int) :
    waits (List.replicate n (.select fd 2 0)) = List.replicate n (.select fd 2 0) := by
  simp only [waits, List.filter_eq_self]
  intro ev hev
  rw [List.eq_of_mem_replicate hev]
  rfl

theorem dequeues_replicate (n : Nat) (fd : Int) :
    dequeues (List.replicate n (.select fd 2 0)) = [] := by
  apply dequeues_eq_nil
  intro ev hev
  rw [List.eq_of_mem_replicate hev]
  exact Nat.ne_of_beq_eq_false rfl

/-- A run that stops in the wait loop after `n` waits: its waits and dequeue requests. -/
theorem waits_of_stream_start (tr : List Event) (n : Nat) (fd : Int)
    (h : ∀ ev ∈ tr, 0 ≤ ev.site ∧ ev.site ≤ 14) :
    waits (tr ++ List.replicate n (.select fd 2 0)) = List.replicate n (.select fd 2 0) ∧
    dequeues (tr ++ List.replicate n (.select fd 2 0)) = [] := by
  rw [waits_append, dequeues_append, waits_replicate, dequeues_replicate,
    waits_eq_nil tr (fun ev hev => by have := (h ev hev).2; omega),
    dequeues_eq_nil tr (fun ev hev => by have := (h ev hev).2; omega)]
  exact ⟨rfl, rfl⟩

/-- C7: let the first k waits be interrupted (select returns -1 with EINTR)
and wait k+1 report a timeout (0) or an error other than EINTR (-1).  Then
every run of method_capture (gfcam.c, parameters in range) and of capture
(cam.c) that reaches the wait loop makes, after the calls up to stream-on,
exactly k+1 select calls, each with the bound of 2 s and 0 us, makes no dequeue
request, and fails with the IOError "select timeout" in the first case and
with the IOError "select failed" in the second. -/
theorem C7_wait_timeout_and_error (dev : Device) (self : cam_device)
    (cam_sel exposure gain : Int) (k : Nat) (last : Sel) (rest : List Sel)
    (hc : 0 ≤ cam_sel ∧ cam_sel ≤ 1) (he : 0 ≤ exposure ∧ exposure ≤ 65535)
    (hg : 0 ≤ gain ∧ gain ≤ 1023)
    (hsel : dev.select = List.replicate k ⟨-1, EINTR⟩ ++ last :: rest)
    (hlast : last.ret = 0 ∨ (last.ret = -1 ∧ last.errno ≠ EINTR)) :
    (∀ tr fd bufs, start_streaming dev cam_sel exposure gain = ⟨tr, .val (fd, bufs)⟩ →
      method_capture dev cam_sel exposure gain =
        ⟨tr ++ List.replicate (k + 1) (.select fd 2 0),
          .raise (PyErr_Format .IOError
            (if last.ret = 0 then "select timeout" else "select failed") [])⟩ ∧
      waits (method_capture dev cam_sel exposure gain).trace =
        List.replicate (k + 1) (.select fd 2 0) ∧
      dequeues (method_capture dev cam_sel exposure gain).trace = []) ∧
    (∀ tr fd bufs, capture_start dev self = ⟨tr, .val (fd, bufs)⟩ →
      capture dev self =
        ⟨tr ++ List.replicate (k + 1) (.select fd 2 0),
          .raise (PyErr_Format .IOError
            (if last.ret = 0 then "select timeout" else "select failed") [])⟩ ∧
      waits (capture dev self).trace = List.replicate (k + 1) (.select fd 2 0) ∧
      dequeues (capture dev self).trace = []) := by
  have hloop : ∀ fd, select_loop dev fd 0 dev.select =
      ⟨List.replicate (k + 1) (.select fd 2 0),
        .raise (PyErr_Format .IOError
          (if last.ret = 0 then "select timeout" else "select failed") [])⟩ := by
    intro fd
    rw [hsel]
    rcases hlast with h | ⟨h, hne⟩
    · rw [select_loop_timeout dev fd 0 k last rest h, if_pos h]
    · rw [select_loop_error dev fd 0 k last rest h hne, if_neg (by omega)]
  constructor
  · intro tr fd bufs hst
    have h1 : method_capture dev cam_sel exposure gain =
        ⟨tr ++ List.replicate (k + 1) (.select fd 2 0),
          .raise (PyErr_Format .IOError
            (if last.ret = 0 then "select timeout" else "select failed") [])⟩ := by
      rw [method_capture_in_range dev cam_sel exposure gain hc he hg]
      simp only [acquire, bind_eq, hst, bind_val, hloop, bind_raise]
    have hp : ∀ ev ∈ tr, 0 ≤ ev.site ∧ ev.site ≤ 14 := by
      have := start_streaming_site dev cam_sel exposure gain
      rw [hst] at this
      exact this
    refine ⟨h1, ?_, ?_⟩
    · rw [h1]; exact (waits_of_stream_start tr (k + 1) fd hp).1
    · rw [h1]; exact (waits_of_stream_start tr (k + 1) fd hp).2
  · intro tr fd bufs hst
    have h1 : capture dev self =
        ⟨tr ++ List.replicate (k + 1) (.select fd 2 0),
          .raise (PyErr_Format .IOError
            (if last.ret = 0 then "select timeout" else "select failed") [])⟩ := by
      simp only [capture, bind_eq, hst, bind_val, hloop, bind_raise]
    have hp : ∀ ev ∈ tr, 0 ≤ ev.site ∧ ev.site ≤ 14 := by
      have := capture_start_site dev self
      rw [hst] at this
      exact this
    refine ⟨h1, ?_, ?_⟩
    · rw [h1]; exact (waits_of_stream_start tr (k + 1) fd hp).1
    · rw [h1]; exact (waits_of_stream_start tr (k + 1) fd hp).2

/-- C7 at the nominal device changed so that two waits are interrupted and
the third reports a timeout. -/
theorem C7_wait_timeout_and_error_witness :
    (method_capture { nominal with select := [⟨-1, EINTR⟩, ⟨-1, EINTR⟩, ⟨0, 0⟩] } 0 3000 30).res =
      .raise (PyErr_Format .IOError "select timeout" []) ∧
    waits (method_capture { nominal with select := [⟨-1, EINTR⟩, ⟨-1, EINTR⟩, ⟨0, 0⟩] }
      0 3000 30).trace = [.select 3 2 0, .select 3 2 0, .select 3 2 0] ∧
    dequeues (capture { nominal with select := [⟨-1, EINTR⟩, ⟨-1, EINTR⟩, ⟨0, 0⟩] }
      ⟨0, none, 0, 0, 1⟩).trace = [] := by
  have h := C7_wait_timeout_and_error
    { nominal with select := [⟨-1, EINTR⟩, ⟨-1, EINTR⟩, ⟨0, 0⟩] } ⟨0, none, 0, 0, 1⟩ 0 3000 30
    2 ⟨0, 0⟩ [] (by decide) (by decide) (by decide) rfl (Or.inl rfl)
  have hg := h.1 _ 3 _ (by rfl :
    start_streaming { nominal with select := [⟨-1, EINTR⟩, ⟨-1, EINTR⟩, ⟨0, 0⟩] } 0 3000 30 =
      ⟨(start_streaming nominal 0 3000 30).trace,
        .val (3, [⟨0x10000000, 5038848⟩, ⟨0x11000000, 5038848⟩])⟩)
  have hcam := h.2 _ 3 _ (by rfl :
    capture_start { nominal with select := [⟨-1, EINTR⟩, ⟨-1, EINTR⟩, ⟨0, 0⟩] }
        ⟨0, none, 0, 0, 1⟩ =
      ⟨(capture_start nominal ⟨0, none, 0, 0, 1⟩).trace,
        .val (3, [⟨0x10000000, 5038848⟩, ⟨0x11000000, 5038848⟩])⟩)
  exact ⟨by rw [hg.1]; rfl, hg.2.1, hcam.2.2⟩

/-! ## C9 -/

theorem pure_eq_val {α : Type} {a b : α} {t : List Event}
    (h : (pure a : Run α) = ⟨t, .val b⟩) : t = [] ∧ b = a := by
  simp only [pure_eq, Run.mk.injEq, Res.val.injEq] at h
  exact ⟨h.1.symm, h.2.symm⟩

/-- Requests, waits and the conversion leave the resources as they are. -/
theorem step_neutral (ev : Event) (r : Resources)
    (h : (1 ≤ ev.site ∧ ev.site ≤ 9) ∨ (13 ≤ ev.site ∧ ev.site ≤ 16) ∨ ev.site = 19) :
    r.step ev = r := by
  cases ev with
  | ioctl fd req n => rfl
  | select fd a b => rfl
  | _ => simp [Event.site] at h

theorem neutral_run {α : Type} {x : Run α} {lo hi : Nat}
    (hr : (1 ≤ lo ∧ hi ≤ 9) ∨ (13 ≤ lo ∧ hi ≤ 16) ∨ (lo = 19 ∧ hi = 19))
    (hx : x.All (fun ev => lo ≤ ev.site ∧ ev.site ≤ hi)) (r : Resources) :
    Resources.after r x.trace = r := by
  have hall : ∀ ev ∈ x.trace, ∀ r : Resources, r.step ev = r := fun ev hev r =>
    step_neutral ev r (by have := hx ev hev; omega)
  generalize x.trace = t at hall
  induction t generalizing r with
  | nil => rfl
  | cons ev t ih =>
    show Resources.after (r.step ev) t = r
    rw [hall ev (List.mem_cons_self _ _) r]
    exact ih r (fun e he => hall e (List.mem_cons_of_mem _ he))

theorem open_device_val (dev : Device) (t : List Event) (fd : Int)
    (h : open_device dev = ⟨t, .val fd⟩) : t = [.open_ fd] ∧ fd ≠ -1 := by
  unfold open_device at h
  by_cases ho : dev.open_ = -1
  · simp [bind_eq, emit, check, ho, raise] at h
  · simp only [bind_eq, emit, check, ho, pure_eq, bind_val, if_false, Run.mk.injEq,
      Res.val.injEq] at h
    obtain ⟨h1, h2⟩ := h
    rw [← h2, ← h1]
    exact ⟨rfl, ho⟩

/-- A completed negotiation holds one more descriptor, the one it returns. -/
theorem negotiate_resources (dev : Device) (cam_sel : Int) (t : List Event) (fd : Int)
    (h : negotiate dev cam_sel = ⟨t, .val fd⟩) (r : Resources) :
    Resources.after r t = { r with fds := fd :: r.fds } := by
  unfold negotiate at h
  obtain ⟨t1, fd1, u1, h1, k1, rfl⟩ := bind_eq_val h
  obtain ⟨t2, _, u2, h2, k2, rfl⟩ := bind_eq_val k1
  obtain ⟨t3, _, u3, h3, k3, rfl⟩ := bind_eq_val k2
  obtain ⟨t4, _, u4, h4, k4, rfl⟩ := bind_eq_val k3
  obtain ⟨t5, _, u5, h5, k5, rfl⟩ := bind_eq_val k4
  obtain ⟨rfl, hfd⟩ := pure_eq_val k5
  obtain ⟨rfl, hne⟩ := open_device_val dev t1 fd1 h1
  have n2 := neutral_run (Or.inl ⟨by omega, by omega⟩) (verify_input_site dev fd1)
  have n3 := neutral_run (Or.inl ⟨by omega, by omega⟩) (select_camera_site dev fd1 cam_sel)
  have n4 := neutral_run (Or.inl ⟨by omega, by omega⟩) (validate_capabilities_site dev fd1)
  have n5 := neutral_run (Or.inl ⟨by omega, by omega⟩) (set_parameters_site dev fd1)
  rw [h2] at n2; rw [h3] at n3; rw [h4] at n4; rw [h5] at n5
  simp only at n2 n3 n4 n5
  rw [after_append, after_append, after_append, after_append, after_append, n2, n3, n4, n5, hfd]
  simp [Resources.after, Resources.step, hne]

/-- A completed configuration holds one more descriptor, the one it returns. -/
theorem configure_resources (dev : Device) (cam_sel exposure gain : Int) (t : List Event)
    (fd : Int) (h : configure dev cam_sel exposure gain = ⟨t, .val fd⟩) (r : Resources) :
    Resources.after r t = { r with fds := fd :: r.fds } := by
  unfold configure at h
  obtain ⟨t1, fd1, u1, h1, k1, rfl⟩ := bind_eq_val h
  obtain ⟨t2, _, u2, h2, k2, rfl⟩ := bind_eq_val k1
  obtain ⟨t3, _, u3, h3, k3, rfl⟩ := bind_eq_val k2
  obtain ⟨t4, _, u4, h4, k4, rfl⟩ := bind_eq_val k3
  obtain ⟨rfl, hfd⟩ := pure_eq_val k4
  have n2 := neutral_run (Or.inl ⟨by omega, by omega⟩)
    (set_controls_site dev fd1 exposure gain (cam_controls.take NUM_CAM_CONTROLS))
  have n3 := neutral_run (Or.inl ⟨by omega, by omega⟩) (set_cropping_site dev fd1)
  have n4 := neutral_run (Or.inl ⟨by omega, by omega⟩) (set_format_site dev fd1)
  rw [h2] at n2; rw [h3] at n3; rw [h4] at n4
  simp only at n2 n3 n4
  rw [after_append, after_append, after_append, after_append, n2, n3, n4,
    negotiate_resources dev cam_sel t1 fd1 h1, hfd]
  rfl

theorem ioctl_val {α : Type} (fd : Int) (req : Req) (answers : List (Sys α)) (t : List Event)
    (q : IoctlResult α) (h : _ioctl fd req answers = ⟨t, .val q⟩) :
    ∃ n, t = [.ioctl fd req n] := by
  simp only [_ioctl, Run.mk.injEq] at h
  exact ⟨_, h.1.symm⟩

theorem check_val (c : Prop) [Decidable c] (e : PyErr) (t : List Event) (u : Unit)
    (h : check c e = ⟨t, .val u⟩) : t = [] ∧ ¬ c := by
  unfold check at h
  split at h
  · simp [raise] at h
  · rename_i hc
    simp only [pure_eq, Run.mk.injEq] at h
    exact ⟨h.1.symm, hc⟩

theorem emit_val (ev : Event) (t : List Event) (u : Unit) (h : emit ev = ⟨t, .val u⟩) :
    t = [ev] := by
  simp only [emit, Run.mk.injEq] at h
  exact h.1.symm

/-- A completed mapping loop holds the regions of the buffers it returns, one per iteration. -/
theorem map_buffers_resources (dev : Device) (fd : Int) (todo n : Nat) (t : List Event)
    (bufs : List buffer) (h : map_buffers dev fd todo n = ⟨t, .val bufs⟩) (r : Resources) :
    Resources.after r t =
      { r with maps := bufs.reverse ++ r.maps } ∧
    bufs.length = todo := by
  induction todo generalizing n t bufs r with
  | zero =>
    obtain ⟨rfl, rfl⟩ := pure_eq_val (show (pure [] : Run (List buffer)) = ⟨t, .val bufs⟩ from h)
    exact ⟨rfl, rfl⟩
  | succ todo ih =>
    unfold map_buffers at h
    obtain ⟨t1, q, u1, h1, k1, rfl⟩ := bind_eq_val h
    obtain ⟨t2, _, u2, h2, k2, rfl⟩ := bind_eq_val k1
    obtain ⟨t3, _, u3, h3, k3, rfl⟩ := bind_eq_val k2
    obtain ⟨m, rfl⟩ := ioctl_val _ _ _ _ _ h1
    obtain ⟨rfl, _⟩ := check_val _ _ _ _ h2
    have e3 := emit_val _ _ _ h3
    cases hm : dev.mmap n with
    | none => rw [hm] at k3; simp [raise] at k3
    | some start =>
      rw [hm] at k3 e3
      simp only at k3
      obtain ⟨t4, rest, u4, h4, k4, rfl⟩ := bind_eq_val k3
      obtain ⟨rfl, hb⟩ := pure_eq_val k4
      subst e3
      obtain ⟨i1, i2⟩ := ih (n + 1) t4 rest h4
        (Resources.after r [.ioctl fd (.VIDIOC_QUERYBUF n) m,
          .mmap (q.out.getD (0, 0)).1 fd (q.out.getD (0, 0)).2 (some start)])
      subst hb
      constructor
      · show Resources.after r ([.ioctl fd (.VIDIOC_QUERYBUF n) m] ++ ([] ++
          ([.mmap (q.out.getD (0, 0)).1 fd (q.out.getD (0, 0)).2 (some start)] ++ (t4 ++ [])))) = _
        simp only [List.nil_append, List.append_nil, List.singleton_append]
        rw [show (Event.ioctl fd (.VIDIOC_QUERYBUF n) m ::
            Event.mmap (q.out.getD (0, 0)).1 fd (q.out.getD (0, 0)).2 (some start) :: t4) =
          [Event.ioctl fd (.VIDIOC_QUERYBUF n) m,
            Event.mmap (q.out.getD (0, 0)).1 fd (q.out.getD (0, 0)).2 (some start)] ++ t4 from rfl,
          after_append, i1]
        simp [Resources.after, Resources.step]
      · simp [i2]

/-- A completed buffer initialisation holds the buffer table and the regions
of the buffers it returns. -/
theorem init_buffers_resources (dev : Device) (fd : Int) (t : List Event) (bufs : List buffer)
    (h : init_buffers dev fd = ⟨t, .val bufs⟩) (r : Resources) :
    Resources.after r t =
      { r with maps := bufs.reverse ++ r.maps,
               heap := Block.buffers :: r.heap } := by
  unfold init_buffers at h
  obtain ⟨t1, q, u1, h1, k1, rfl⟩ := bind_eq_val h
  obtain ⟨t2, _, u2, h2, k2, rfl⟩ := bind_eq_val k1
  obtain ⟨t3, _, u3, h3, k3, rfl⟩ := bind_eq_val k2
  obtain ⟨t4, _, u4, h4, k4, rfl⟩ := bind_eq_val k3
  obtain ⟨t5, _, u5, h5, k5, rfl⟩ := bind_eq_val k4
  obtain ⟨m, rfl⟩ := ioctl_val _ _ _ _ _ h1
  obtain ⟨rfl, _⟩ := check_val _ _ _ _ h2
  obtain ⟨rfl, _⟩ := check_val _ _ _ _ h3
  have e4 := emit_val _ _ _ h4
  obtain ⟨rfl, hc⟩ := check_val _ _ _ _ h5
  have hct : dev.calloc = true := by simpa using hc
  rw [hct] at e4
  subst e4
  simp only [List.nil_append, List.singleton_append]
  rw [show (Event.ioctl fd (.VIDIOC_REQBUFS 2) m ::
      Event.calloc (q.out.getD 2 % 2 ^ 32) true :: u5) =
    [Event.ioctl fd (.VIDIOC_REQBUFS 2) m, Event.calloc (q.out.getD 2 % 2 ^ 32) true] ++ u5
    from rfl, after_append, (map_buffers_resources dev fd _ 0 u5 bufs k5 _).1]
  simp [Resources.after, Resources.step]

/-- Once streaming has started the function holds the descriptor, the buffer
table and the regions of the buffers mapped. -/
theorem start_streaming_resources (dev : Device) (cam_sel exposure gain : Int)
    (t : List Event) (fd : Int) (bufs : List buffer)
    (h : start_streaming dev cam_sel exposure gain = ⟨t, .val (fd, bufs)⟩) (r : Resources) :
    Resources.after r t =
      ⟨fd :: r.fds, bufs.reverse ++ r.maps,
        Block.buffers :: r.heap⟩ := by
  unfold start_streaming at h
  obtain ⟨t1, fd1, u1, h1, k1, rfl⟩ := bind_eq_val h
  obtain ⟨t2, bufs1, u2, h2, k2, rfl⟩ := bind_eq_val k1
  obtain ⟨t3, _, u3, h3, k3, rfl⟩ := bind_eq_val k2
  obtain ⟨t4, _, u4, h4, k4, rfl⟩ := bind_eq_val k3
  obtain ⟨rfl, hv⟩ := pure_eq_val k4
  simp only [Prod.mk.injEq] at hv
  obtain ⟨rfl, rfl⟩ := hv
  have n3 := neutral_run (Or.inr (Or.inl ⟨by omega, by omega⟩))
    (queue_buffers_site dev fd bufs.length 0)
  have n4 := neutral_run (Or.inr (Or.inl ⟨by omega, by omega⟩)) (stream_on_site dev fd)
  rw [h3] at n3; rw [h4] at n4
  simp only at n3 n4
  rw [after_append, after_append, after_append, after_append, n3, n4,
    configure_resources dev cam_sel exposure gain t1 fd h1,
    init_buffers_resources dev fd t2 bufs h2]
  rfl

theorem convert_resources (dev : Device) (index : Nat) (t : List Event) (rgb : buffer)
    (h : convert dev index = ⟨t, .val rgb⟩) (r : Resources) :
    Resources.after r t = { r with maps := rgb :: r.maps } := by
  unfold convert at h
  obtain ⟨t1, _, u1, h1, k1, rfl⟩ := bind_eq_val h
  have e1 := emit_val _ _ _ h1
  cases hm : dev.mmap_rgb with
  | none => rw [hm] at k1; simp [raise] at k1
  | some start =>
    rw [hm] at k1 e1
    simp only at k1
    obtain ⟨t2, _, u2, h2, k2, rfl⟩ := bind_eq_val k1
    have e2 := emit_val _ _ _ h2
    obtain ⟨rfl, hb⟩ := pure_eq_val k2
    subst e1 e2 hb
    rfl

/-- Once a frame is converted the function holds the descriptor, the buffer
table, the regions of the device buffers and the RGB region. -/
theorem acquire_resources (dev : Device) (cam_sel exposure gain : Int)
    (t : List Event) (c : Captured)
    (h : acquire dev cam_sel exposure gain = ⟨t, .val c⟩) (r : Resources) :
    Resources.after r t =
      ⟨c.dev_fd :: r.fds,
        c.rgb :: (c.buffers.reverse ++ r.maps),
        Block.buffers :: r.heap⟩ := by
  unfold acquire at h
  obtain ⟨t1, s, u1, h1, k1, rfl⟩ := bind_eq_val h
  obtain ⟨t2, index, u2, h2, k2, rfl⟩ := bind_eq_val k1
  obtain ⟨t3, rgb, u3, h3, k3, rfl⟩ := bind_eq_val k2
  obtain ⟨rfl, hc⟩ := pure_eq_val k3
  subst hc
  have n2 := neutral_run (Or.inr (Or.inl ⟨by omega, by omega⟩))
    (select_loop_site dev s.1 0 dev.select)
  rw [h2] at n2
  simp only at n2
  rw [after_append, after_append, after_append, n2,
    start_streaming_resources dev cam_sel exposure gain t1 s.1 s.2 h1,
    convert_resources dev index t3 rgb h3]
  rfl

/-- Removing, one by one, the elements of a rearrangement of `L` from `L ++ m` leaves `m`. -/
theorem foldl_erase_perm {α : Type} [DecidableEq α] (es L m : List α) (h : es.Perm L) :
    es.foldl List.erase (L ++ m) = m := by
  induction es generalizing L with
  | nil =>
    have : L = [] := List.Perm.eq_nil (h.symm)
    rw [this]; rfl
  | cons x es ih =>
    have hx : x ∈ L := h.subset (List.mem_cons_self _ _)
    have hp : es.Perm (L.erase x) := by
      have := h.erase x
      rwa [List.erase_cons_head] at this
    show es.foldl List.erase ((L ++ m).erase x) = m
    rw [List.erase_append_left _ hx]
    exact ih _ hp

theorem after_munmaps (bufs : List buffer) (r : Resources) :
    Resources.after r (bufs.map (fun b => Event.munmap b.start b.length)) =
      { r with maps := bufs.foldl List.erase r.maps } := by
  induction bufs generalizing r with
  | nil => rfl
  | cons b bufs ih =>
    show Resources.after (r.step (.munmap b.start b.length)) _ = _
    rw [ih]
    rfl

theorem build_result_val (dev : Device) (rgb : buffer) (index : Nat) (t : List Event)
    (jpeg : Jpeg) (h : build_result dev rgb index = ⟨t, .val jpeg⟩) :
    t = [.PyBytes_FromStringAndSize dev.pybytes, .free .jpg_buf,
      .munmap rgb.start rgb.length] := by
  unfold build_result at h
  simp only [bind_eq, emit, bind_val] at h
  split at h
  · simp only [pure_eq, Run.mk.injEq] at h
    rw [← h.1]; rfl
  · simp [raise] at h

/-- The release of a completed capture: what is held after it, from what was held before. -/
theorem finish_resources (dev : Device) (c : Captured) (t : List Event) (jpeg : Jpeg)
    (h : finish dev c = ⟨t, .val jpeg⟩) (r : Resources) :
    Resources.after r t =
      ⟨r.fds.erase c.dev_fd,
        (c.buffers.foldl List.erase r.maps).erase c.rgb,
        (((Block.jpg_buf :: Block.jpg_cinfo :: (r.heap.erase Block.buffers)).erase
          Block.jpg_cinfo).erase Block.jpg_buf)⟩ := by
  unfold finish at h
  obtain ⟨t1, _, u1, h1, k1, rfl⟩ := bind_eq_val h
  obtain ⟨t2, _, u2, h2, k2, rfl⟩ := bind_eq_val k1
  obtain ⟨t3, _, u3, h3, k3, rfl⟩ := bind_eq_val k2
  have n1 := neutral_run (Or.inr (Or.inr ⟨rfl, rfl⟩)) (stop_stream_site dev c.dev_fd)
  rw [h1] at n1
  simp only at n1
  have e2 : t2 = c.buffers.map (fun b => Event.munmap b.start b.length) ++
      [.free .buffers, .close c.dev_fd] := by
    simp only [release_buffers, Run.mk.injEq] at h2; exact h2.1.symm
  have e3 : t3 = [.jpeg_create_compress, .jpeg_mem_dest, .jpeg_start_compress,
      .jpeg_finish_compress, .jpeg_destroy_compress] := by
    simp only [compress, Run.mk.injEq] at h3; exact h3.1.symm
  have e4 := build_result_val dev c.rgb c.index u3 jpeg k3
  rw [after_append, after_append, after_append, n1, e2, after_append, after_munmaps, e3, e4]
  rfl

/-- A successful call of method_capture leaves the resources as it found them. -/
theorem method_capture_restores (dev : Device) (cam_sel exposure gain : Int) (jpeg : Jpeg)
    (h : (method_capture dev cam_sel exposure gain).res = .val jpeg) (r : Resources) :
    Resources.after r (method_capture dev cam_sel exposure gain).trace = r := by
  rcases method_capture_cases dev cam_sel exposure gain with ⟨e, he⟩ | he
  · rw [he] at h; simp at h
  · have hrun : acquire dev cam_sel exposure gain >>= finish dev =
        ⟨(method_capture dev cam_sel exposure gain).trace, .val jpeg⟩ := by
      rw [bind_eq, ← he, ← h]
    obtain ⟨ta, c, tf, ha, hf, ht⟩ := bind_eq_val hrun
    rw [ht, after_append, acquire_resources dev cam_sel exposure gain ta c ha,
      finish_resources dev c tf jpeg hf]
    obtain ⟨fds, maps, heap⟩ := r
    have hmaps : (c.buffers.foldl List.erase (c.rgb :: (c.buffers.reverse ++ maps))).erase
        c.rgb = maps := by
      have hp : (c.buffers ++ [c.rgb]).Perm (c.rgb :: c.buffers.reverse) :=
        (List.perm_append_comm).trans ((List.reverse_perm _).symm.cons _)
      have := foldl_erase_perm _ _ maps hp
      rw [List.foldl_append] at this
      exact this
    simp only [hmaps]
    simp

/-- C9: for every sequence of consecutive calls of method_capture, each on a
device behaviour of its own, if all of them succeed (which needs at least 2
granted buffers) then the resources held after the last call are exactly
those held before the first: every descriptor opened is closed, every device
buffer and RGB mapping is unmapped, the buffer table, the compressor state and
the JPEG output buffer are freed.  The same holds for each single call from
any starting state, so the counts of open descriptors and of mapped regions
are back at their baseline after each call. -/
theorem C9_successful_captures_restore_resources (calls : List Call) (r0 : Resources)
    (hok : ∀ c ∈ calls, ∃ jpeg, c.run.res = .val jpeg) :
    Resources.after r0 (consecutive calls) = r0 ∧
    (Resources.after r0 (consecutive calls)).fds.length = r0.fds.length ∧
    (Resources.after r0 (consecutive calls)).maps.length = r0.maps.length ∧
    (∀ c ∈ calls, ∀ r : Resources, Resources.after r c.run.trace = r) := by
  have hone : ∀ c ∈ calls, ∀ r : Resources, Resources.after r c.run.trace = r := by
    intro c hc r
    obtain ⟨jpeg, hj⟩ := hok c hc
    exact method_capture_restores c.dev c.cam_sel c.exposure c.gain jpeg hj r
  have hall : Resources.after r0 (consecutive calls) = r0 := by
    clear hok
    induction calls with
    | nil => rfl
    | cons c cs ih =>
      show Resources.after r0 (c.run.trace ++ consecutive cs) = r0
      rw [after_append, hone c (List.mem_cons_self _ _)]
      exact ih (fun c hc => hone c (List.mem_cons_of_mem _ hc))
  exact ⟨hall, by rw [hall], by rw [hall], hone⟩

/-- C9 at three consecutive captures on the nominal device, starting with
one descriptor, one mapping and no heap block held. -/
theorem C9_successful_captures_restore_resources_witness :
    Resources.after ⟨[0], [⟨4096, 4096⟩], []⟩
      (consecutive [⟨nominal, 0, 3000, 30⟩, ⟨nominal, 1, 3000, 30⟩, ⟨nominal, 0, 100, 5⟩]) =
      ⟨[0], [⟨4096, 4096⟩], []⟩ :=
  (C9_successful_captures_restore_resources
    [⟨nominal, 0, 3000, 30⟩, ⟨nominal, 1, 3000, 30⟩, ⟨nominal, 0, 100, 5⟩]
    ⟨[0], [⟨4096, 4096⟩], []⟩
    (by
      intro c hc
      simp only [List.mem_cons, List.mem_singleton, List.not_mem_nil, or_false] at hc
      rcases hc with rfl | rfl | rfl <;> exact ⟨⟨1⟩, by rfl⟩)).1

/-! ## The buffer pool before stream-on -/

theorem buffer_steps_append (t1 t2 : List Event) :
    buffer_steps (t1 ++ t2) = buffer_steps t1 ++ buffer_steps t2 := by
  simp [buffer_steps]

/-- Only calls at sites 11 to 13 are buffer-pool steps. -/
theorem buffer_steps_eq_nil (t : List Event) (h : ∀ ev ∈ t, ev.site ≤ 10 ∨ 14 ≤ ev.site) :
    buffer_steps t = [] := by
  simp only [buffer_steps, List.filterMap_eq_nil_iff]
  intro ev hev
  have hs := h ev hev
  cases ev with
  | ioctl fd req n => cases req <;> simp [Event.site, Req.site] at hs <;> rfl
  | mmap a b c d => simp [Event.site] at hs
  | _ => rfl

theorem map_buffers_steps (dev : Device) (fd : Int) (todo i : Nat) (t : List Event)
    (bufs : List buffer) (h : map_buffers dev fd todo i = ⟨t, .val bufs⟩) :
    buffer_steps t =
      (List.range' i todo).flatMap (fun i => [BufferStep.query i, BufferStep.map true]) := by
  induction todo generalizing i t bufs with
  | zero =>
    obtain ⟨rfl, rfl⟩ := pure_eq_val (show (pure [] : Run (List buffer)) = ⟨t, .val bufs⟩ from h)
    rfl
  | succ todo ih =>
    unfold map_buffers at h
    obtain ⟨t1, q, u1, h1, k1, rfl⟩ := bind_eq_val h
    obtain ⟨t2, _, u2, h2, k2, rfl⟩ := bind_eq_val k1
    obtain ⟨t3, _, u3, h3, k3, rfl⟩ := bind_eq_val k2
    obtain ⟨m, rfl⟩ := ioctl_val _ _ _ _ _ h1
    obtain ⟨rfl, _⟩ := check_val _ _ _ _ h2
    have e3 := emit_val _ _ _ h3
    cases hm : dev.mmap i with
    | none => rw [hm] at k3; simp [raise] at k3
    | some start =>
      rw [hm] at k3 e3
      simp only at k3
      obtain ⟨t4, rest, u4, h4, k4, rfl⟩ := bind_eq_val k3
      obtain ⟨rfl, hb⟩ := pure_eq_val k4
      subst e3
      simp only [buffer_steps_append, List.range'_succ, List.flatMap_cons, ih (i + 1) t4 rest h4]
      simp [buffer_steps, Event.buffer_step]

theorem queue_buffers_steps (dev : Device) (fd : Int) (todo i : Nat) (t : List Event) (u : Unit)
    (h : queue_buffers dev fd todo i = ⟨t, .val u⟩) :
    buffer_steps t = (List.range' i todo).map BufferStep.queue := by
  induction todo generalizing i t with
  | zero =>
    obtain ⟨rfl, _⟩ := pure_eq_val (show (pure () : Run Unit) = ⟨t, .val u⟩ from h)
    rfl
  | succ todo ih =>
    unfold queue_buffers at h
    obtain ⟨t1, q, u1, h1, k1, rfl⟩ := bind_eq_val h
    obtain ⟨t2, _, u2, h2, k2, rfl⟩ := bind_eq_val k1
    obtain ⟨m, rfl⟩ := ioctl_val _ _ _ _ _ h1
    obtain ⟨rfl, _⟩ := check_val _ _ _ _ h2
    simp only [buffer_steps_append, List.range'_succ, List.map_cons, ih (i + 1) u2 k2]
    simp [buffer_steps, Event.buffer_step]

/-- A completed buffer initialisation after a grant of n buffers, n between 2
and INT_MAX: each index below n queried then mapped, in increasing order, and
n buffers returned. -/
theorem init_buffers_steps (dev : Device) (fd : Int) (k n : Nat) (rest : List (Sys Nat))
    (t : List Event) (bufs : List buffer)
    (hr : dev.reqbufs = List.replicate k (Sys.err EINTR) ++ Sys.ok n :: rest)
    (hn : n < 2 ^ 31)
    (h : init_buffers dev fd = ⟨t, .val bufs⟩) :
    buffer_steps t =
      (List.range n).flatMap (fun i => [BufferStep.query i, BufferStep.map true]) ∧
    bufs.length = n := by
  unfold init_buffers at h
  obtain ⟨t1, q, u1, h1, k1, rfl⟩ := bind_eq_val h
  obtain ⟨t2, _, u2, h2, k2, rfl⟩ := bind_eq_val k1
  obtain ⟨t3, _, u3, h3, k3, rfl⟩ := bind_eq_val k2
  obtain ⟨t4, _, u4, h4, k4, rfl⟩ := bind_eq_val k3
  obtain ⟨t5, _, u5, h5, k5, rfl⟩ := bind_eq_val k4
  rw [hr, _ioctl_ok] at h1
  simp only [Run.mk.injEq, Res.val.injEq] at h1
  obtain ⟨rfl, rfl⟩ := h1
  obtain ⟨rfl, _⟩ := check_val _ _ _ _ h2
  obtain ⟨rfl, _⟩ := check_val _ _ _ _ h3
  have e4 := emit_val _ _ _ h4
  obtain ⟨rfl, _⟩ := check_val _ _ _ _ h5
  subst e4
  have hmod : n % 2 ^ 32 = n := Nat.mod_eq_of_lt (by omega)
  have hint : (int_of_u32 (n % 2 ^ 32)).toNat = n := by
    unfold int_of_u32
    rw [hmod, hmod, if_pos hn]
    simp
  simp only [Option.getD_some] at k5
  rw [hint] at k5
  constructor
  · simp only [buffer_steps_append, map_buffers_steps dev fd n 0 u5 bufs k5,
      List.range_eq_range']
    simp [buffer_steps, Event.buffer_step]
  · exact (map_buffers_resources dev fd n 0 u5 bufs k5 ⟨[], [], []⟩).2

/-- If two splittings of a list are at calls of site 14 and one of them has no other
call of site 14, they are the same splitting. -/
theorem split_at_stream_on (l1 l2 l1' l2' : List Event) (a a' : Event)
    (h : l1 ++ a :: l2 = l1' ++ a' :: l2') (ha : a.site = 14)
    (h1 : ∀ ev ∈ l1', ev.site ≠ 14) (h2 : ∀ ev ∈ l2', ev.site ≠ 14) :
    l1 = l1' ∧ l2 = l2' := by
  induction l1' generalizing l1 with
  | nil =>
    cases l1 with
    | nil =>
      simp only [List.nil_append, List.cons.injEq] at h
      exact ⟨rfl, h.2⟩
    | cons b l1t =>
      simp only [List.nil_append, List.cons_append, List.cons.injEq] at h
      have : a ∈ l2' := by rw [← h.2]; simp
      exact absurd ha (h2 a this)
  | cons b l1t' ih =>
    cases l1 with
    | nil =>
      simp only [List.nil_append, List.cons_append, List.cons.injEq] at h
      have := h1 b (List.mem_cons_self _ _)
      rw [← h.1] at this
      exact absurd ha this
    | cons c l1t =>
      simp only [List.cons_append, List.cons.injEq] at h
      obtain ⟨i1, i2⟩ := ih l1t h.2 (fun ev hev => h1 ev (List.mem_cons_of_mem _ hev))
      exact ⟨by rw [h.1, i1], i2⟩

theorem stream_on_trace (dev : Device) (fd : Int) :
    (stream_on dev fd).trace = [.ioctl fd .VIDIOC_STREAMON (ioctl_loop dev.streamon).1] := by
  unfold stream_on _ioctl
  cases h : (ioctl_loop dev.streamon).2 with
  | val r =>
    simp only [bind_eq, Run.bind, h]
    unfold check
    split <;> simp [raise, pure_eq]
  | raise e => simp [bind_eq, Run.bind, h]
  | hang => simp [bind_eq, Run.bind, h]

theorem bind_pure_trace {α β : Type} (x : Run α) (g : α → β) :
    (x >>= fun a => (pure (g a) : Run β)).trace = x.trace := by
  obtain ⟨t, r⟩ := x
  cases r <;> simp [bind_eq, pure_eq]

/-- The trace of a sequence: the first part alone when it does not end with
a value, both parts otherwise. -/
theorem bind_trace_cases {α β : Type} (x : Run α) (f : α → Run β) :
    (∃ a, x.res = .val a ∧ (x >>= f).trace = x.trace ++ (f a).trace) ∨
    ((∀ a, x.res ≠ .val a) ∧ (x >>= f).trace = x.trace) := by
  obtain ⟨t, r⟩ := x
  cases r with
  | val a => exact Or.inl ⟨a, rfl, rfl⟩
  | raise e => exact Or.inr ⟨by simp, rfl⟩
  | hang => exact Or.inr ⟨by simp, rfl⟩

/-- After a completed configuration the trace of method_capture is the
configuration calls, then calls of the buffer set-up, then, if the set-up and
the queueing complete, the stream-on request and calls of later sections. -/
theorem trace_from_configure (dev : Device) (cam_sel exposure gain : Int)
    (tr : List Event) (fd : Int)
    (hc : 0 ≤ cam_sel ∧ cam_sel ≤ 1) (he : 0 ≤ exposure ∧ exposure ≤ 65535)
    (hg : 0 ≤ gain ∧ gain ≤ 1023)
    (hcfg : configure dev cam_sel exposure gain = ⟨tr, .val fd⟩) :
    (∃ ti bufs tq later, init_buffers dev fd = ⟨ti, .val bufs⟩ ∧
      queue_buffers dev fd bufs.length 0 = ⟨tq, .val ()⟩ ∧
      (method_capture dev cam_sel exposure gain).trace =
        (tr ++ ti ++ tq) ++ .ioctl fd .VIDIOC_STREAMON (ioctl_loop dev.streamon).1 :: later ∧
      ∀ ev ∈ later, 15 ≤ ev.site) ∨
    (∀ ev ∈ (method_capture dev cam_sel exposure gain).trace, ev.site ≠ 14) := by
  rw [method_capture_in_range dev cam_sel exposure gain hc he hg]
  obtain ⟨t4, e4, p4⟩ := bind_trace_split (P := fun ev => 15 ≤ ev.site)
    (acquire dev cam_sel exposure gain) (finish dev)
    (fun c => All_mono (fun ev h => by omega) (finish_site dev c))
  rw [← bind_eq, e4]
  unfold acquire
  obtain ⟨t3, e3, p3⟩ := bind_trace_split (P := fun ev => 15 ≤ ev.site)
    (start_streaming dev cam_sel exposure gain)
    (fun s => do
      let index ← select_loop dev s.1 0 dev.select
      let rgb ← convert dev index
      pure (⟨s.1, s.2, index, rgb⟩ : Captured))
    (fun s => All_bind (All_mono (fun ev h => by omega) (select_loop_site _ _ _ _))
      (fun _ => All_bind (All_mono (fun ev h => by omega) (convert_site _ _))
        (fun _ => All_pure _)))
  rw [e3]
  have hlater : ∀ ev ∈ t3 ++ t4, 15 ≤ ev.site := by
    intro ev hev
    rcases List.mem_append.mp hev with h | h
    · exact p3 ev h
    · exact p4 ev h
  have htr : ∀ ev ∈ tr, ev.site ≠ 14 := by
    have := configure_site dev cam_sel exposure gain
    rw [hcfg] at this
    intro ev hev
    have := (this ev hev).2
    omega
  unfold start_streaming
  rw [hcfg]
  simp only [bind_eq, bind_val]
  have hti : ∀ ev ∈ (init_buffers dev fd).trace, ev.site ≠ 14 := fun ev hev => by
    have := (init_buffers_site dev fd ev hev).2
    omega
  rcases bind_trace_cases (init_buffers dev fd) (fun buffers => do
      queue_buffers dev fd buffers.length 0
      stream_on dev fd
      pure (fd, buffers)) with ⟨bufs, hi, ei⟩ | ⟨_, ei⟩
  · simp only [bind_eq] at ei
    rw [ei]
    have htq : ∀ ev ∈ (queue_buffers dev fd bufs.length 0).trace, ev.site ≠ 14 := fun ev hev => by
      have := (queue_buffers_site dev fd bufs.length 0 ev hev).2
      omega
    rcases bind_trace_cases (queue_buffers dev fd bufs.length 0) (fun _ => do
        stream_on dev fd
        pure (fd, bufs)) with ⟨u, hq, eq⟩ | ⟨_, eq⟩
    · left
      simp only [bind_eq] at eq
      have es := bind_pure_trace (stream_on dev fd) (fun _ => (fd, bufs))
      simp only [bind_eq] at es
      rw [eq, es, stream_on_trace]
      refine ⟨(init_buffers dev fd).trace, bufs, (queue_buffers dev fd bufs.length 0).trace,
        t3 ++ t4, ?_, ?_, ?_, hlater⟩
      · rw [← hi]
      · rw [← hq]
      · simp [List.append_assoc]
    · right
      simp only [bind_eq] at eq
      rw [eq]
      intro ev hev
      simp only [List.mem_append] at hev
      rcases hev with ((h | h | h) | h) | h
      · exact htr ev h
      · exact hti ev h
      · exact htq ev h
      · have := p3 ev h; omega
      · have := p4 ev h; omega
  · right
    simp only [bind_eq] at ei
    rw [ei]
    intro ev hev
    simp only [List.mem_append] at hev
    rcases hev with ((h | h) | h) | h
    · exact htr ev h
    · exact hti ev h
    · have := p3 ev h; omega
    · have := p4 ev h; omega

/-- A grant above INT_MAX: on the nominal device changed to grant 2147483648
buffers (and calloc succeeding) the cast (int)req.count of line 213 is
negative, the query-and-map loop and the queue loop run zero times, and
method_capture issues stream-on although no buffer was queried, mapped or
queued. -/
theorem stream_on_after_grant_above_int_max :
    Event.ioctl 3 .VIDIOC_STREAMON 1 ∈
      (method_capture { nominal with reqbufs := [.ok 2147483648] } 0 3000 30).trace ∧
    buffer_steps (method_capture { nominal with reqbufs := [.ok 2147483648] } 0 3000 30).trace
      = [] ∧
    (2 : Nat) ≤ 2147483648 := by
  refine ⟨by decide, by rfl, by decide⟩

/-- The requests made for the buffer pool: for every granted buffer count n
below 2^31 (a grant below 2 never reaches stream-on), whenever method_capture
(parameters in range) has got through the configuration and issues stream-on,
the buffer-pool requests issued before the stream-on request are exactly: for
each index 0..n-1 in increasing order a query request followed by a successful
mapping, then one queue request for each index 0..n-1 in increasing order; and
no buffer-pool request, in particular no queue request, follows the stream-on
request.  Whether a queue request succeeded is not part of this statement. -/
theorem buffer_requests_before_stream_on (dev : Device) (cam_sel exposure gain : Int)
    (tr : List Event) (fd : Int) (k n : Nat) (rest : List (Sys Nat))
    (t1 t2 : List Event) (fd1 : Int) (m : Nat)
    (hc : 0 ≤ cam_sel ∧ cam_sel ≤ 1) (he : 0 ≤ exposure ∧ exposure ≤ 65535)
    (hg : 0 ≤ gain ∧ gain ≤ 1023)
    (hcfg : configure dev cam_sel exposure gain = ⟨tr, .val fd⟩)
    (hr : dev.reqbufs = List.replicate k (Sys.err EINTR) ++ Sys.ok n :: rest)
    (hmax : n < 2 ^ 31)
    (hson : (method_capture dev cam_sel exposure gain).trace =
      t1 ++ .ioctl fd1 .VIDIOC_STREAMON m :: t2) :
    buffer_steps t1 =
      (List.range n).flatMap (fun i => [BufferStep.query i, BufferStep.map true]) ++
      (List.range n).map BufferStep.queue ∧
    buffer_steps t2 = [] := by
  rcases trace_from_configure dev cam_sel exposure gain tr fd hc he hg hcfg with
    ⟨ti, bufs, tq, later, hi, hq, ht, hl⟩ | hno
  · rw [ht] at hson
    have htr : ∀ ev ∈ tr, 0 ≤ ev.site ∧ ev.site ≤ 8 := by
      have := configure_site dev cam_sel exposure gain
      rw [hcfg] at this
      exact this
    have hti : ∀ ev ∈ ti, 9 ≤ ev.site ∧ ev.site ≤ 12 := by
      have := init_buffers_site dev fd
      rw [hi] at this
      exact this
    have htq : ∀ ev ∈ tq, 13 ≤ ev.site ∧ ev.site ≤ 13 := by
      have := queue_buffers_site dev fd bufs.length 0
      rw [hq] at this
      exact this
    obtain ⟨e1, e2⟩ := split_at_stream_on t1 t2 (tr ++ ti ++ tq) later _ _ hson.symm rfl
      (by
        intro ev hev
        simp only [List.mem_append] at hev
        rcases hev with (h | h) | h
        · have := (htr ev h).2; omega
        · have := (hti ev h).2; omega
        · have := (htq ev h).2; omega)
      (fun ev hev => by have := hl ev hev; omega)
    obtain ⟨s1, s2⟩ := init_buffers_steps dev fd k n rest ti bufs hr hmax hi
    rw [s2] at hq
    constructor
    · rw [e1, buffer_steps_append, buffer_steps_append, s1,
        buffer_steps_eq_nil tr (fun ev hev => Or.inl (by have := (htr ev hev).2; omega)),
        queue_buffers_steps dev fd n 0 tq () hq, List.range_eq_range']
      rfl
    · rw [e2]
      exact buffer_steps_eq_nil later (fun ev hev => Or.inr (by have := hl ev hev; omega))
  · exfalso
    have hmem : Event.ioctl fd1 .VIDIOC_STREAMON m ∈
        (method_capture dev cam_sel exposure gain).trace := by
      rw [hson]; simp
    exact hno _ hmem rfl

/-- The buffer-pool requests at the nominal device (two buffers granted). -/
theorem buffer_requests_before_stream_on_nominal :
    buffer_steps ((configure nominal 0 3000 30).trace ++
      [.ioctl 3 (.VIDIOC_REQBUFS 2) 1, .calloc 2 true,
       .ioctl 3 (.VIDIOC_QUERYBUF 0) 1, .mmap 5038848 3 0 (some 0x10000000),
       .ioctl 3 (.VIDIOC_QUERYBUF 1) 1, .mmap 5038848 3 5038848 (some 0x11000000),
       .ioctl 3 (.VIDIOC_QBUF 0) 1, .ioctl 3 (.VIDIOC_QBUF 1) 1]) =
      [.query 0, .map true, .query 1, .map true, .queue 0, .queue 1] :=
  (buffer_requests_before_stream_on nominal 0 3000 30 (configure nominal 0 3000 30).trace 3 0 2 []
    ((configure nominal 0 3000 30).trace ++
      [.ioctl 3 (.VIDIOC_REQBUFS 2) 1, .calloc 2 true,
       .ioctl 3 (.VIDIOC_QUERYBUF 0) 1, .mmap 5038848 3 0 (some 0x10000000),
       .ioctl 3 (.VIDIOC_QUERYBUF 1) 1, .mmap 5038848 3 5038848 (some 0x11000000),
       .ioctl 3 (.VIDIOC_QBUF 0) 1, .ioctl 3 (.VIDIOC_QBUF 1) 1])
    [.select 3 2 0, .ioctl 3 .VIDIOC_DQBUF 1, .mmap_anon 15116544 (some 0x20000000),
     .bayer_decoding 1, .ioctl 3 .VIDIOC_STREAMOFF 1,
     .munmap 0x10000000 5038848, .munmap 0x11000000 5038848, .free .buffers, .close 3,
     .jpeg_create_compress, .jpeg_mem_dest, .jpeg_start_compress, .jpeg_finish_compress,
     .jpeg_destroy_compress, .PyBytes_FromStringAndSize true, .free .jpg_buf,
     .munmap 0x20000000 15116544]
    3 1 (by decide) (by decide) (by decide) (by rfl) rfl (by decide) (by rfl)).1

/-! ## C12 -/

/-- With positive errno values the retry loop delivers no negative result. -/
theorem ioctl_loop_nonneg {α : Type} (answers : List (Sys α))
    (hpos : ∀ e, Sys.err e ∈ answers → 0 < e) (r : IoctlResult α)
    (h : (ioctl_loop answers).2 = .val r) : 0 ≤ r.ret := by
  induction answers with
  | nil => simp [ioctl_loop] at h
  | cons a rest ih =>
    cases a with
    | ok a =>
      simp only [ioctl_loop, Res.val.injEq] at h
      rw [← h]
    | err errno =>
      simp only [ioctl_loop] at h
      split at h
      · simp only [Res.val.injEq] at h
        rw [← h]
        exact Int.le_of_lt (hpos errno (List.mem_cons_self _ _))
      · exact ih (fun e he => hpos e (List.mem_cons_of_mem _ he)) h

/-- An exception raised by a check is the one the check names. -/
theorem check_raise_eq {c : Prop} [Decidable c] {e e2 : PyErr}
    (h : (check c e).res = .raise e2) : e2 = e := by
  unfold check at h
  split at h
  · simp only [raise, Res.raise.injEq] at h
    exact h.symm
  · simp [pure_eq] at h

/-- C12: a script of k EINTR failures followed by a success makes `_ioctl`
issue k+1 underlying calls and return 0; followed by a failure with an
errno e other than EINTR it makes `_ioctl` issue k+1 calls and
return e.  For every script of answers with positive errno values, finite or
not conclusive, a result of `_ioctl` is not negative, so the test
`_ioctl(...) < 0` of a caller is false: verify_input (gfcam.c lines 109-110)
never raises "VIDIOC_G_INPUT failed" and goes on to the next request
whenever its first `_ioctl` returns. -/
theorem C12_ioctl_result_is_never_negative {α : Type} (fd : Int) (req : Req) (k : Nat) (a : α)
    (e : Int) (rest : List (Sys α)) (he : e ≠ EINTR) :
    _ioctl fd req (List.replicate k (Sys.err EINTR) ++ Sys.ok a :: rest) =
      ⟨[.ioctl fd req (k + 1)], .val ⟨0, some a⟩⟩ ∧
    _ioctl fd req (List.replicate k (Sys.err EINTR) ++ Sys.err e :: rest) =
      ⟨[.ioctl fd req (k + 1)], .val ⟨e, none⟩⟩ ∧
    (∀ answers : List (Sys α), (∀ n, Sys.err n ∈ answers → 0 < n) →
      ∀ r, (_ioctl fd req answers).res = .val r → ¬ r.ret < 0) ∧
    (∀ dev : Device, (∀ n, Sys.err n ∈ dev.g_input → 0 < n) →
      ∀ args, (verify_input dev fd).res ≠
        .raise (PyErr_Format .IOError "VIDIOC_G_INPUT failed (%x)" args)) := by
  refine ⟨_ioctl_ok fd req k a rest, _ioctl_err fd req k e he rest, ?_, ?_⟩
  · intro answers hp r hr
    exact Int.not_lt.mpr (ioctl_loop_nonneg answers hp r hr)
  · intro dev hp args h
    unfold verify_input at h
    rcases bind_res_raise h with ⟨_, h1⟩ | ⟨r, h1, h2⟩
    · exact ioctl_loop_ne_raise _ _ h1
    · have hr : ¬ r.ret < 0 := Int.not_lt.mpr (ioctl_loop_nonneg _ hp r h1)
      rcases bind_res_raise h2 with ⟨_, h3⟩ | ⟨_, _, h4⟩
      · simp [check, hr, pure_eq] at h3
      · rcases bind_res_raise h4 with ⟨_, h5⟩ | ⟨r2, h5, h6⟩
        · exact ioctl_loop_ne_raise _ _ h5
        · rcases bind_res_raise h6 with ⟨_, h7⟩ | ⟨_, _, h8⟩
          · have := check_raise_eq h7
            simp [PyErr_Format] at this
          · have := check_raise_eq h8
            simp [PyErr_Format] at this

theorem C12_ioctl_result_is_never_negative_witness :
    _ioctl 3 .VIDIOC_G_INPUT (List.replicate 2 (Sys.err EINTR) ++ Sys.ok (0 : Int) :: []) =
      ⟨[.ioctl 3 .VIDIOC_G_INPUT 3], .val ⟨0, some 0⟩⟩ ∧
    _ioctl 3 .VIDIOC_G_INPUT (List.replicate 2 (Sys.err EINTR) ++ Sys.err EIO :: ([] : List (Sys Int))) =
      ⟨[.ioctl 3 .VIDIOC_G_INPUT 3], .val ⟨ EIO, none⟩⟩ :=
  ⟨(C12_ioctl_result_is_never_negative 3 .VIDIOC_G_INPUT 2 (0 : Int) EIO [] (by decide)).1,
   (C12_ioctl_result_is_never_negative 3 .VIDIOC_G_INPUT 2 (0 : Int) EIO [] (by decide)).2.1⟩

/-! ## C13 -/

/-- When every write advances next_scanline by one, the loop with `todo`
scanlines left and at least as much fuel makes one call for each of them, in order. -/
theorem scanline_loop_unit (written : Nat → Nat) (hw : ∀ s, written s = 1) (image_height : Nat) :
    ∀ (todo fuel next_scanline : Nat), next_scanline + todo = image_height → todo ≤ fuel →
      scanline_loop written image_height fuel next_scanline =
        some ((List.range' next_scanline todo).map (fun s => (s, row_offset s))) := by
  intro todo
  induction todo with
  | zero =>
    intro fuel next_scanline h _
    have hn : ¬ next_scanline < image_height := by omega
    cases fuel <;> simp [scanline_loop, hn]
  | succ todo ih =>
    intro fuel next_scanline h hf
    have hn : next_scanline < image_height := by omega
    cases fuel with
    | zero => omega
    | succ fuel =>
      simp only [scanline_loop, if_pos hn, hw]
      rw [ih fuel (next_scanline + 1) (by omega) (by omega)]
      simp [List.range'_succ]

theorem row_offset_eq (s : Nat) (h : s ≤ GFCAM_HEIGHT) : row_offset s = s * 7776 := by
  unfold row_offset
  have hH : GFCAM_HEIGHT = 1944 := rfl
  have hW : GFCAM_WIDTH = 2592 := rfl
  rw [hW]
  rw [hH] at h
  omega

/-- C13: the RGB buffer size 2592*1944*3 is 15116544, both products staying
below 2^31, so that neither int nor uint32_t arithmetic overflows, and this
is the length of the buffer a successful conversion maps.  When each call of
jpeg_write_scanlines advances next_scanline by one, the scanline loop, given
at least 1944 iterations, ends after one call for each of the scanlines 0, 1,
..., 1943 in this order, the call at scanline s passing the row at byte
offset s*2592*3.  For every s < 1944 the 7776-byte row lies within the
buffer and the next row starts where it ends. -/
theorem C13_rgb_buffer_and_scanlines (written : Nat → Nat) (hw : ∀ s, written s = 1)
    (fuel : Nat) (hfuel : GFCAM_HEIGHT ≤ fuel) :
    rgb_size = 15116544 ∧
    GFCAM_WIDTH * GFCAM_HEIGHT < 2 ^ 31 ∧ GFCAM_WIDTH * GFCAM_HEIGHT * 3 < 2 ^ 31 ∧
    (∀ dev index t b, convert dev index = ⟨t, .val b⟩ → b.length = rgb_size) ∧
    scanline_loop written GFCAM_HEIGHT fuel 0 =
      some ((List.range 1944).map (fun s => (s, s * 2592 * 3))) ∧
    row_bytes = 7776 ∧
    ∀ s, s < 1944 →
      row_offset s = s * 2592 * 3 ∧ row_offset s + row_bytes ≤ rgb_size ∧
      row_offset (s + 1) = row_offset s + row_bytes := by
  have hH : GFCAM_HEIGHT = 1944 := rfl
  refine ⟨by decide, by decide, by decide, ?_, ?_, rfl, ?_⟩
  · intro dev index t b h
    unfold convert at h
    cases hm : dev.mmap_rgb with
    | none =>
      rw [hm] at h
      have := congrArg Run.res h
      simp [bind_eq, emit, raise] at this
    | some rgb_map =>
      rw [hm] at h
      have := congrArg Run.res h
      simp only [bind_eq, emit, bind_val, pure_eq, Res.val.injEq] at this
      rw [← this]
      rfl
  · rw [scanline_loop_unit written hw GFCAM_HEIGHT GFCAM_HEIGHT fuel 0 (by omega) hfuel,
      List.range_eq_range', hH]
    refine congrArg some (List.map_congr_left ?_)
    intro s hs
    have : s < 1944 := by
      have := (List.mem_range'_1.mp hs).2
      omega
    rw [row_offset_eq s (by rw [hH]; omega)]
    exact congrArg (Prod.mk s) (by omega)
  · intro s hs
    have e1 := row_offset_eq s (by rw [hH]; omega)
    have e2 := row_offset_eq (s + 1) (by rw [hH]; omega)
    have e3 : rgb_size = 15116544 := by decide
    have e4 : row_bytes = 7776 := rfl
    rw [e1, e2, e3, e4]
    omega

theorem C13_rgb_buffer_and_scanlines_witness :
    GFCAM_HEIGHT ≤ 2000 ∧
    scanline_loop (fun _ => 1) GFCAM_HEIGHT 2000 0 =
      some ((List.range 1944).map (fun s => (s, s * 2592 * 3))) :=
  ⟨by decide, (C13_rgb_buffer_and_scanlines (fun _ => 1) (fun _ => rfl) 2000 (by decide)).2.2.2.2.1⟩

/-! ## C14 -/

/-- Conjunction with a single bit: the bit itself if it is set, zero otherwise. -/
theorem and_two_pow_eq (x j : Nat) : x &&& 2 ^ j = if x.testBit j = true then 2 ^ j else 0 := by
  apply Nat.eq_of_testBit_eq
  intro k
  by_cases h : x.testBit j = true
  · rw [if_pos h, Nat.testBit_and, Nat.testBit_two_pow]
    by_cases hk : j = k
    · subst hk; simp [h]
    · simp [hk]
  · rw [if_neg h, Nat.testBit_and, Nat.testBit_two_pow]
    by_cases hk : j = k
    · subst hk; simp [h]
    · simp [hk]

/-- The 32-bit pattern of a promoted char has the low eight bits of the byte. -/
theorem u32_char_value_testBit (signed_char : Bool) (b j : Nat) (hj : j < 8) :
    (u32 (char_value signed_char b)).testBit j = b.testBit j := by
  have hb : b % 256 < 256 := Nat.mod_lt _ (by decide)
  have hlow : (b % 256).testBit j = b.testBit j := by
    have := Nat.testBit_mod_two_pow b 8 j
    simpa [hj] using this
  unfold char_value u32
  split
  · next hs =>
    have e : ((((b % 256 : Nat) : Int) - 256) % 2 ^ 32).toNat = 2 ^ 8 * (2 ^ 24 - 1) + b % 256 := by
      omega
    rw [e, Nat.testBit_mul_pow_two_add _ (by omega), if_pos hj, hlow]
  · have e : ((((b % 256 : Nat) : Int)) % 2 ^ 32).toNat = b % 256 := by omega
    rw [e, hlow]

/-- The function test_bit is non-zero exactly for a set bit, whatever the signedness of char. -/
theorem test_bit_ne_zero (signed_char : Bool) (bytes : List Nat) (i : Nat) :
    test_bit signed_char bytes i ≠ 0 ↔ bit_set bytes i = true := by
  have hj : i % 8 < 8 := Nat.mod_lt _ (by decide)
  unfold test_bit bit_set
  rw [Nat.one_shiftLeft, and_two_pow_eq, u32_char_value_testBit _ _ _ hj]
  by_cases h : ((bytes.getD (i / 8) 0).testBit (i % 8)) = true
  · rw [if_pos h]
    have h2 : 2 ^ (i % 8) ≤ 2 ^ 7 := Nat.pow_le_pow_right (by decide) (by omega)
    have h3 : 0 < 2 ^ (i % 8) := Nat.two_pow_pos _
    simp only [h, iff_true]
    unfold int_of_u32
    split <;> omega
  · rw [if_neg h]
    exact ⟨fun k => absurd rfl k, fun k => absurd k h⟩

/-- The loop appends exactly the positions it finds set, in increasing order. -/
theorem collect_bits_eq (signed_char : Bool) (bytes : List Nat) :
    ∀ (todo i : Nat), collect_bits signed_char bytes todo i =
      (List.range' i todo).filter (bit_set bytes) := by
  intro todo
  induction todo with
  | zero => intro i; rfl
  | succ todo ih =>
    intro i
    unfold collect_bits
    rw [List.range'_succ, ih]
    by_cases h : bit_set bytes i = true
    · rw [if_pos ((test_bit_ne_zero signed_char bytes i).mpr h), List.filter_cons_of_pos h]
    · rw [if_neg (fun k => h ((test_bit_ne_zero signed_char bytes i).mp k)),
        List.filter_cons_of_neg h]

/-- C14: for event type EV_SW, an ioctl that does not return -1 and a
bitmask of (SW_MAX+7)/8 bytes left by the device, ioctl_EVIOCG_bits returns,
whatever the signedness of char, the list of the indices i < SW_MAX whose bit
(byte i/8, bit i mod 8, least-significant first) is set: the list is strictly
increasing, an index is in it exactly when it is below SW_MAX and its bit is
set, and SW_MAX itself is never in it.  The function test_bit is non-zero
exactly for the set bits, for signed and for unsigned char. -/
theorem C14_switch_bits (signed_char : Bool) (SW_MAX : Nat) (ret : Int) (bytes : List Nat)
    (hlen : bytes.length = (SW_MAX + 7) / 8) (hret : ret ≠ -1) :
    ioctl_EVIOCG_bits signed_char SW_MAX EV_SW ret bytes =
      some ((List.range SW_MAX).filter (bit_set bytes)) ∧
    (∃ l, ioctl_EVIOCG_bits signed_char SW_MAX EV_SW ret bytes = some l ∧
      l.Pairwise (fun a b => a < b) ∧
      (∀ i, i ∈ l ↔ i < SW_MAX ∧ bit_set bytes i = true) ∧
      SW_MAX ∉ l) ∧
    (∀ i, i < SW_MAX → (test_bit true bytes i ≠ 0 ↔ bit_set bytes i = true) ∧
      (test_bit false bytes i ≠ 0 ↔ bit_set bytes i = true) ∧
      ∃ b, bytes.get? (i / 8) = some b ∧ bit_set bytes i = b.testBit (i % 8)) := by
  have hval : ioctl_EVIOCG_bits signed_char SW_MAX EV_SW ret bytes =
      some ((List.range SW_MAX).filter (bit_set bytes)) := by
    unfold ioctl_EVIOCG_bits
    rw [if_pos rfl, if_neg hret, collect_bits_eq, List.range_eq_range']
  refine ⟨hval, ⟨_, hval, ?_, ?_, ?_⟩, ?_⟩
  · exact List.Pairwise.sublist (List.filter_sublist _) (List.pairwise_lt_range SW_MAX)
  · intro i
    simp [List.mem_filter, List.mem_range]
  · simp [List.mem_filter, List.mem_range]
  · intro i hi
    refine ⟨test_bit_ne_zero true bytes i, test_bit_ne_zero false bytes i, ?_⟩
    have hlt : i / 8 < bytes.length := by omega
    refine ⟨bytes.get ⟨i / 8, hlt⟩, List.get?_eq_get hlt, ?_⟩
    unfold bit_set
    rw [List.getD_eq_getElem _ _ hlt]
    rfl

theorem C14_switch_bits_witness :
    ioctl_EVIOCG_bits true 16 EV_SW 2 [0x81, 0x80] = some [0, 7, 15] :=
  (C14_switch_bits true 16 2 [0x81, 0x80] (by decide) (by decide)).1

/-! ## C11 -/

theorem bind_assoc_run {α β γ : Type} (x : Run α) (f : α → Run β) (g : β → Run γ) :
    (x >>= f) >>= g = x >>= fun a => f a >>= g := by
  obtain ⟨t, r⟩ := x
  cases r with
  | val a =>
    simp only [bind_eq, bind_val]
    cases h : f a with
    | mk t2 r2 => cases r2 <;> simp [Run.bind, List.append_assoc]
  | raise e => rfl
  | hang => rfl

theorem pure_bind_run {α β : Type} (a : α) (f : α → Run β) : pure a >>= f = f a := rfl

/-- The calls up to the camera selection, followed by anything, are the common
prefix followed by it. -/
theorem open_and_select_then {β : Type} (dev : Device) (cam_sel : Int) (k : Int → Run β) :
    (open_device dev >>= fun fd => verify_input dev fd >>= fun _ =>
      select_camera dev fd cam_sel >>= fun _ => k fd) = open_and_select dev cam_sel >>= k := by
  unfold open_and_select
  simp only [bind_assoc_run, pure_bind_run]

theorem camera_select_none_of_site (ev : Event) (h : ev.site ≠ 3) : ev.camera_select = none := by
  cases ev with
  | ioctl fd req n => cases req <;> simp [Event.site, Req.site] at h <;> rfl
  | _ => rfl

/-- A run whose calls all lie in a range of sites without 3 sends no camera selector. -/
theorem no_camera_select {α : Type} (x : Run α) (lo hi : Nat) (h : 3 < lo ∨ hi < 3)
    (hx : x.All (fun ev => lo ≤ ev.site ∧ ev.site ≤ hi)) :
    x.All (fun ev => ev.camera_select = none) :=
  All_mono (fun ev hev => camera_select_none_of_site ev (by omega)) hx

theorem table_has_no_camera_select :
    ∀ c ∈ cam_controls.take NUM_CAM_CONTROLS, c.cid ≠ .V4L2_CID_GLOWFORGE_SEL_CAM := by
  decide

theorem camera_select_other (fd : Int) (cid : Cid) (value : Int) (n : Nat)
    (h : cid ≠ .V4L2_CID_GLOWFORGE_SEL_CAM) :
    (Event.ioctl fd (.VIDIOC_S_CTRL cid value) n).camera_select = none := by
  cases cid <;> first | rfl | exact absurd rfl h

/-- The control loop of gfcam.c sends no camera selector for a table without one. -/
theorem set_controls_no_camera_select (dev : Device) (fd exposure gain : Int)
    (l : List cam_control) (hl : ∀ c ∈ l, c.cid ≠ .V4L2_CID_GLOWFORGE_SEL_CAM) :
    (set_controls dev fd exposure gain l).All (fun ev => ev.camera_select = none) := by
  induction l with
  | nil => exact All_pure _
  | cons c rest ih =>
    unfold set_controls
    apply All_bind
    · exact All_ioctl _ _ _ (fun n => camera_select_other _ _ _ n (hl c (List.mem_cons_self _ _)))
    · intro r
      apply All_bind
      · exact All_check _ _
      · intro _
        exact ih (fun c hc => hl c (List.mem_cons_of_mem _ hc))

/-- The control loop of cam.c sends no camera selector for a table without one. -/
theorem _set_controls_no_camera_select (dev : Device) (fd : Int)
    (l : List cam_control) (hl : ∀ c ∈ l, c.cid ≠ .V4L2_CID_GLOWFORGE_SEL_CAM) :
    (_set_controls dev fd l).All (fun ev => ev.camera_select = none) := by
  induction l with
  | nil => exact All_pure _
  | cons c rest ih =>
    unfold _set_controls
    apply All_bind
    · exact All_ioctl _ _ _ (fun n => camera_select_other _ _ _ n (hl c (List.mem_cons_self _ _)))
    · intro r
      apply All_bind
      · exact All_check _ _
      · intro _
        exact ih (fun c hc => hl c (List.mem_cons_of_mem _ hc))

theorem camera_selects_append (t1 t2 : List Event) :
    camera_selects (t1 ++ t2) = camera_selects t1 ++ camera_selects t2 := by
  simp [camera_selects, List.filterMap_append]

theorem camera_selects_eq_nil (t : List Event) (h : ∀ ev ∈ t, ev.camera_select = none) :
    camera_selects t = [] := by
  simpa [camera_selects, List.filterMap_eq_nil_iff] using h

/-- Calls that send no camera selector, made after a run, leave its selectors as they are. -/
theorem camera_selects_bind {α β : Type} (x : Run α) (f : α → Run β)
    (hf : ∀ a, (f a).All (fun ev => ev.camera_select = none)) :
    camera_selects (x >>= f).trace = camera_selects x.trace := by
  obtain ⟨t2, e, p⟩ := bind_trace_split x f hf
  rw [e, camera_selects_append, camera_selects_eq_nil t2 p, List.append_nil]

/-- A sequence after a value goes on with the continuation; otherwise it ends there
without a value. -/
theorem bind_cases {α β : Type} (x : Run α) (f : α → Run β) :
    (∃ a, x.res = .val a ∧ (x >>= f).res = (f a).res ∧
      (x >>= f).trace = x.trace ++ (f a).trace) ∨
    ((∀ a, x.res ≠ .val a) ∧ (∀ b, (x >>= f).res ≠ .val b) ∧ (x >>= f).trace = x.trace) := by
  obtain ⟨t, r⟩ := x
  cases r with
  | val a => exact Or.inl ⟨a, rfl, rfl, rfl⟩
  | raise e => exact Or.inr ⟨by simp, by simp [bind_eq], rfl⟩
  | hang => exact Or.inr ⟨by simp, by simp [bind_eq], rfl⟩

theorem select_camera_camera_selects (dev : Device) (fd cam_sel : Int) :
    camera_selects (select_camera dev fd cam_sel).trace = [cam_sel] := by
  unfold select_camera
  rcases bind_cases (_ioctl fd (.VIDIOC_S_CTRL .V4L2_CID_GLOWFORGE_SEL_CAM cam_sel)
      (dev.s_ctrl .V4L2_CID_GLOWFORGE_SEL_CAM cam_sel))
      (fun r => check (r.ret < 0) (PyErr_Format .IOError "failed to select camera %d" [.d cam_sel]))
    with ⟨r, _, _, ht⟩ | ⟨_, _, ht⟩
  · rw [ht]
    have : (check (r.ret < 0) (PyErr_Format .IOError "failed to select camera %d"
        [.d cam_sel])).trace = [] := by
      unfold check; split <;> rfl
    rw [this]; rfl
  · rw [ht]; rfl

/-- The common prefix sends the selector it is given, if it gets that far, and no other. -/
theorem open_and_select_camera_selects (dev : Device) (cam_sel : Int) :
    (camera_selects (open_and_select dev cam_sel).trace = [] ∧
      ∀ fd, (open_and_select dev cam_sel).res ≠ .val fd) ∨
    camera_selects (open_and_select dev cam_sel).trace = [cam_sel] := by
  have ho := camera_selects_eq_nil _
    (no_camera_select _ 0 0 (Or.inr (by omega)) (open_device_site dev))
  unfold open_and_select
  rcases bind_cases (open_device dev) (fun fd => verify_input dev fd >>= fun _ =>
      select_camera dev fd cam_sel >>= fun _ => pure fd) with ⟨fd, _, hr1, ht1⟩ | ⟨_, hr1, ht1⟩
  · have hv := camera_selects_eq_nil _
      (no_camera_select _ 1 2 (Or.inr (by omega)) (verify_input_site dev fd))
    rcases bind_cases (verify_input dev fd) (fun _ =>
        select_camera dev fd cam_sel >>= fun _ => pure fd) with ⟨_, _, hr2, ht2⟩ | ⟨_, hr2, ht2⟩
    · right
      rw [ht1, ht2, camera_selects_append, camera_selects_append, ho, hv,
        camera_selects_bind _ _ (fun _ => All_pure _), select_camera_camera_selects]
      rfl
    · left
      refine ⟨?_, fun b => ?_⟩
      · rw [ht1, ht2, camera_selects_append, ho, hv]; rfl
      · rw [hr1]; exact hr2 b
  · left
    exact ⟨by rw [ht1, ho], hr1⟩

/-- The selectors method_capture sends, for arguments in range, are those of the common prefix. -/
theorem method_capture_camera_selects (dev : Device) (cam_sel exposure gain : Int)
    (hc : 0 ≤ cam_sel ∧ cam_sel ≤ 1) (he : 0 ≤ exposure ∧ exposure ≤ 65535)
    (hg : 0 ≤ gain ∧ gain ≤ 1023) :
    camera_selects (method_capture dev cam_sel exposure gain).trace =
      camera_selects (open_and_select dev cam_sel).trace := by
  rw [method_capture_in_range dev cam_sel exposure gain hc he hg, ← bind_eq]
  unfold acquire start_streaming configure negotiate
  simp only [bind_assoc_run]
  rw [open_and_select_then]
  apply camera_selects_bind
  intro fd
  repeat (first
    | exact All_pure _
    | exact no_camera_select _ 4 4 (Or.inl (by omega)) (validate_capabilities_site _ _)
    | exact no_camera_select _ 5 5 (Or.inl (by omega)) (set_parameters_site _ _)
    | exact set_controls_no_camera_select _ _ _ _ _ table_has_no_camera_select
    | exact no_camera_select _ 6 7 (Or.inl (by omega)) (set_cropping_site _ _)
    | exact no_camera_select _ 8 8 (Or.inl (by omega)) (set_format_site _ _)
    | exact no_camera_select _ 9 12 (Or.inl (by omega)) (init_buffers_site _ _)
    | exact no_camera_select _ 13 13 (Or.inl (by omega)) (queue_buffers_site _ _ _ _)
    | exact no_camera_select _ 14 14 (Or.inl (by omega)) (stream_on_site _ _)
    | exact no_camera_select _ 15 16 (Or.inl (by omega)) (select_loop_site _ _ _ _)
    | exact no_camera_select _ 17 18 (Or.inl (by omega)) (convert_site _ _)
    | exact no_camera_select _ 19 28 (Or.inl (by omega)) (finish_site _ _)
    | (apply All_bind) | (intro _))

/-- The selectors capture of cam.c sends are those of the common prefix. -/
theorem capture_camera_selects (dev : Device) (self : cam_device) :
    camera_selects (capture dev self).trace =
      camera_selects (open_and_select dev self.cam_sel).trace := by
  unfold capture capture_start
  simp only [bind_assoc_run]
  rw [open_and_select_then]
  apply camera_selects_bind
  intro fd
  repeat (first
    | exact All_pure _
    | exact All_check _ _
    | exact All_emit _ rfl
    | exact no_camera_select _ 4 4 (Or.inl (by omega)) (validate_capabilities_site _ _)
    | exact no_camera_select _ 5 5 (Or.inl (by omega)) (set_parameters_site _ _)
    | exact _set_controls_no_camera_select _ _ _ table_has_no_camera_select
    | exact no_camera_select _ 6 7 (Or.inl (by omega)) (set_cropping_site _ _)
    | exact no_camera_select _ 8 8 (Or.inl (by omega)) (set_format_site _ _)
    | exact no_camera_select _ 9 12 (Or.inl (by omega)) (init_buffers_site _ _)
    | exact no_camera_select _ 13 13 (Or.inl (by omega)) (queue_buffers_site _ _ _ _)
    | exact no_camera_select _ 14 14 (Or.inl (by omega)) (stream_on_site _ _)
    | exact no_camera_select _ 15 16 (Or.inl (by omega)) (select_loop_site _ _ _ _)
    | exact no_camera_select _ 17 18 (Or.inl (by omega)) (convert_site _ _)
    | exact no_camera_select _ 19 19 (Or.inl (by omega)) (stop_stream_site _ _)
    | (apply All_bind) | (intro _))

/-- C11: for every parsed integer c, `_init_camera` of cam.c on a
zero-initialised object returns 0 and stores selector 0 when c = 0 and
selector 1 otherwise, which is the clamping of the specification.  For c in
0..1 method_capture of gfcam.c does not reject: it opens the device, every
camera selector it sends is c, it sends exactly c once the calls up to the
selection complete, and capture of cam.c on the initialised object sends the
same selectors.  For c outside 0..1 method_capture raises the ValueError
without any call, while capture of cam.c sends selector 1.  The clamped value
is the one the strict validation accepts exactly for c in 0..1. -/
theorem C11_selector_validations (dev : Device) (c exposure gain stack_cam_sel : Int)
    (he : 0 ≤ exposure ∧ exposure ≤ 65535) (hg : 0 ≤ gain ∧ gain ≤ 1023) :
    (_init_camera zeroed (some c) stack_cam_sel).1 = 0 ∧
    (_init_camera zeroed (some c) stack_cam_sel).2.cam_sel = (if c = 0 then 0 else 1) ∧
    (_init_camera zeroed (some c) stack_cam_sel).2.cam_sel = clamp_selector c ∧
    ((c = 0 ∨ c = 1) →
      (method_capture dev c exposure gain).trace.head? = some (.open_ dev.open_) ∧
      (∀ v ∈ camera_selects (method_capture dev c exposure gain).trace, v = c) ∧
      (∀ fd, (open_and_select dev c).res = .val fd →
        camera_selects (method_capture dev c exposure gain).trace = [c]) ∧
      camera_selects (capture dev (_init_camera zeroed (some c) stack_cam_sel).2).trace =
        camera_selects (method_capture dev c exposure gain).trace) ∧
    (¬ (c = 0 ∨ c = 1) →
      method_capture dev c exposure gain =
        ⟨[], .raise (PyErr_Format .ValueError "cam_sel must be between 0 and 1" [])⟩ ∧
      (∀ v ∈ camera_selects (capture dev (_init_camera zeroed (some c) stack_cam_sel).2).trace,
        v = 1) ∧
      (∀ fd, (open_and_select dev 1).res = .val fd →
        camera_selects (capture dev (_init_camera zeroed (some c) stack_cam_sel).2).trace =
          [1])) ∧
    (strict_selector c = some (clamp_selector c) ↔ (c = 0 ∨ c = 1)) := by
  have hsel : (_init_camera zeroed (some c) stack_cam_sel).2.cam_sel = (if c = 0 then 0 else 1) := by
    unfold _init_camera
    by_cases h : c = 0
    · simp [h, zeroed]
    · simp [h]
  refine ⟨rfl, hsel, by rw [hsel]; rfl, ?_, ?_, ?_⟩
  · intro hc
    have hr : 0 ≤ c ∧ c ≤ 1 := by omega
    have hstored : (_init_camera zeroed (some c) stack_cam_sel).2.cam_sel = c := by
      rw [hsel]; split <;> omega
    have hm := method_capture_camera_selects dev c exposure gain hr he hg
    refine ⟨?_, ?_, ?_, ?_⟩
    · rw [method_capture_in_range dev c exposure gain hr he hg]
      exact bind_head _ _ _ (bind_head _ _ _ (bind_head _ _ _ (bind_head _ _ _
        (bind_head _ _ _ (bind_head _ _ _ rfl)))))
    · intro v hv
      rw [hm] at hv
      rcases open_and_select_camera_selects dev c with ⟨h, _⟩ | h
      · rw [h] at hv; simp at hv
      · rw [h] at hv; simpa using hv
    · intro fd hfd
      rw [hm]
      rcases open_and_select_camera_selects dev c with ⟨_, h⟩ | h
      · exact absurd hfd (h fd)
      · exact h
    · rw [hm, capture_camera_selects, hstored]
  · intro hc
    have hstored : (_init_camera zeroed (some c) stack_cam_sel).2.cam_sel = 1 := by
      rw [hsel]; split <;> omega
    refine ⟨?_, ?_, ?_⟩
    · have e1 : c_bool (c < 0) ||| c_bool (c > 1) ≠ 0 := by
        rw [c_bool_or_ne_zero]; omega
      unfold method_capture
      rw [if_pos e1]
      rfl
    · intro v hv
      rw [capture_camera_selects, hstored] at hv
      rcases open_and_select_camera_selects dev 1 with ⟨h, _⟩ | h
      · rw [h] at hv; simp at hv
      · rw [h] at hv; simpa using hv
    · intro fd hfd
      rw [capture_camera_selects, hstored]
      rcases open_and_select_camera_selects dev 1 with ⟨_, h⟩ | h
      · exact absurd hfd (h fd)
      · exact h
  · unfold strict_selector clamp_selector
    by_cases h0 : c = 0
    · simp [h0]
    · by_cases h1 : c = 1
      · simp [h1]
      · simp [h0, h1]

theorem C11_selector_validations_witness :
    (0 ≤ (3000 : Int) ∧ (3000 : Int) ≤ 65535) ∧ (0 ≤ (30 : Int) ∧ (30 : Int) ≤ 1023) ∧
    (_init_camera zeroed (some 7) 0).2.cam_sel = 1 ∧
    method_capture nominal 7 3000 30 =
      ⟨[], .raise (PyErr_Format .ValueError "cam_sel must be between 0 and 1" [])⟩ ∧
    camera_selects (method_capture nominal 1 3000 30).trace = [1] :=
  ⟨by decide, by decide,
   (C11_selector_validations nominal 7 3000 30 0 (by decide) (by decide)).2.1,
   ((C11_selector_validations nominal 7 3000 30 0 (by decide) (by decide)).2.2.2.2.1
      (by decide)).1,
   ((C11_selector_validations nominal 1 3000 30 0 (by decide) (by decide)).2.2.2.1
      (Or.inr rfl)).2.2.1 3 rfl⟩

/-! ## C10 -/

/-- With positive errno values the queue loop never raises: the test of line 236 is never true. -/
theorem queue_buffers_ne_raise (dev : Device) (fd : Int)
    (hpos : ∀ i n, Sys.err n ∈ dev.qbuf i → 0 < n) (e : PyErr) :
    ∀ (todo i : Nat), (queue_buffers dev fd todo i).res ≠ .raise e := by
  intro todo
  induction todo with
  | zero => intro i h; simp [queue_buffers, pure_eq] at h
  | succ todo ih =>
    intro i h
    unfold queue_buffers at h
    rcases bind_res_raise h with ⟨_, h1⟩ | ⟨r, h1, h2⟩
    · exact ioctl_loop_ne_raise _ _ h1
    · have hr : ¬ r.ret < 0 := Int.not_lt.mpr (ioctl_loop_nonneg _ (hpos i) r h1)
      rcases bind_res_raise h2 with ⟨_, h3⟩ | ⟨_, _, h4⟩
      · simp [check, hr, pure_eq] at h3
      · exact ih (i + 1) h4

/-- C10, the code at a failing input: on the nominal device (two buffers
granted) changed so that every queue request fails with EINVAL (22), `_ioctl`
returns 22, the test `< 0` of line 236 is false and the IOError of line 237
is not raised: method_capture queries and maps both buffers, issues the two
queue requests, which both fail, and then issues stream-on with no buffer
queued, where the nominal device has buffers 0 and 1 queued, and goes on to
return a JPEG.  On every device with positive errno values the queue loop
raises nothing. -/
theorem C10_stream_on_without_queued_buffers :
    (_ioctl 3 (.VIDIOC_QBUF 0) [(Sys.err 22 : Sys Unit)]).res = .val ⟨22, none⟩ ∧
    (start_streaming { nominal with qbuf := fun _ => [.err 22] } 0 3000 30).res =
      .val (3, [⟨0x10000000, 5038848⟩, ⟨0x11000000, 5038848⟩]) ∧
    buffer_steps (start_streaming { nominal with qbuf := fun _ => [.err 22] } 0 3000 30).trace =
      [.query 0, .map true, .query 1, .map true, .queue 0, .queue 1] ∧
    (start_streaming { nominal with qbuf := fun _ => [.err 22] } 0 3000 30).trace.getLast? =
      some (.ioctl 3 .VIDIOC_STREAMON 1) ∧
    queued { nominal with qbuf := fun _ => [.err 22] }
      (start_streaming { nominal with qbuf := fun _ => [.err 22] } 0 3000 30).trace = [] ∧
    queued nominal (start_streaming nominal 0 3000 30).trace = [0, 1] ∧
    Event.ioctl 3 .VIDIOC_STREAMON 1 ∈
      (method_capture { nominal with qbuf := fun _ => [.err 22] } 0 3000 30).trace ∧
    queued { nominal with qbuf := fun _ => [.err 22] }
      (method_capture { nominal with qbuf := fun _ => [.err 22] } 0 3000 30).trace = [] ∧
    (method_capture { nominal with qbuf := fun _ => [.err 22] } 0 3000 30).res = .val ⟨1⟩ ∧
    (∀ (dev : Device) (fd : Int) (todo i : Nat) (e : PyErr),
      (∀ j n, Sys.err n ∈ dev.qbuf j → 0 < n) →
      (queue_buffers dev fd todo i).res ≠ .raise e) := by
  refine ⟨by rfl, by rfl, by rfl, by rfl, by rfl, by rfl, by decide, by rfl, by rfl, ?_⟩
  intro dev fd todo i e hpos
  exact queue_buffers_ne_raise dev fd hpos e todo i

end GFHardware
